import Mathlib

/-!
Verification of the profmatch-be matching orchestration pipeline.

This file is a shallow embedding of the pipeline source
(`app/services/orchestrator.py`, `app/services/mcp_client.py`,
`app/services/cache.py`, `app/services/redis.py`) into Lean 4.

Modelling conventions:
* Python JSON-ish values (the data flowing between the MCP tool servers and
  the orchestrator) are modelled by the inductive type `PyVal`.
* `async` code is modelled as pure state-passing functions; `asyncio.gather`
  with `return_exceptions=True` is modelled by mapping an `Except`-valued
  function over the task list (gather preserves input order, so the
  sequential model is faithful for all list-level observations).
* Exceptions are modelled with `Except PyErr`; the constructors of `PyErr`
  track the distinction the source code makes in its `except` clauses
  (`TypeError`/`KeyError`/`json.JSONDecodeError` are caught in places where
  `AttributeError` and `ValueError` are not).
* External collaborators (the MCP tool servers, the Gemini oracle, the
  stdlib `json.loads`, the email validator used by pydantic `EmailStr`, the
  GCS file store and the wall clock) are modelled as an explicit `Env`
  record of response functions; the pipeline is deterministic given `Env`.
* Machine floats (`match_score`, timestamps) are modelled as `Rat`;
  JSON-standard numbers carry no NaN/Inf, and no claim depends on rounding.
* Python strings are Lean `String`; the string operations the source uses
  (`split`, `replace`, `strip`, `lower`, substring `in`, the
  `re.search(r"\[.*\]", _, re.DOTALL)` extraction) are implemented on
  `List Char` so that they compute by `decide`/`simp`.
-/

/-- A Python/JSON value as it flows through the pipeline. -/
inductive PyVal where
  | none
  | bool (b : Bool)
  | int (n : Int)
  | float (q : Rat)
  | str (s : String)
  | list (xs : List PyVal)
  | dict (kvs : List (String × PyVal))
  deriving Repr

/-- Python `==` on values (structural; dict key order is irrelevant for the
claims, all concrete dicts compared in this development are in key order). -/
def PyVal.beq : PyVal → PyVal → Bool
  | .none, .none => true
  | .bool a, .bool b => a == b
  | .int a, .int b => a == b
  | .float a, .float b => a == b
  | .str a, .str b => a == b
  | .list [], .list [] => true
  | .list (x :: xs), .list (y :: ys) => x.beq y && (PyVal.list xs).beq (.list ys)
  | .dict [], .dict [] => true
  | .dict ((k, v) :: xs), .dict ((l, w) :: ys) =>
      k == l && v.beq w && (PyVal.dict xs).beq (.dict ys)
  | _, _ => false

instance : BEq PyVal := ⟨PyVal.beq⟩

/-- Python truthiness (`bool(v)`). -/
def pyTruthy : PyVal → Bool
  | .none => false
  | .bool b => b
  | .int n => n != 0
  | .float q => q != 0
  | .str s => s != ""
  | .list xs => !xs.isEmpty
  | .dict kvs => !kvs.isEmpty

/-- The Python exception classes the orchestrator distinguishes.
`jsonDecodeError`, `keyError` and `typeError` are caught by
`generate_matches`; `attributeError` and `valueError` (which includes
pydantic `ValidationError`) propagate out of it. -/
inductive PyErr where
  | attributeError
  | typeError
  | valueError
  | jsonDecodeError
  | keyError
  | multipleResultsFound
  deriving Repr, DecidableEq

/-- First-match association lookup on the entry list of a Python dict. -/
def dictLookup (kvs : List (String × PyVal)) (k : String) : Option PyVal :=
  match kvs with
  | [] => Option.none
  | (k', v) :: rest => if k' = k then some v else dictLookup rest k

/-- `d[k] = v` on a Python dict entry list: replace in place or append. -/
def dictSet (kvs : List (String × PyVal)) (k : String) (v : PyVal) :
    List (String × PyVal) :=
  match kvs with
  | [] => [(k, v)]
  | (k', w) :: rest => if k' = k then (k, v) :: rest else (k', w) :: dictSet rest k v

/-- Python `m.get(k, default)`: raises `AttributeError` when `m` is not a
dict. -/
def pyGet (m : PyVal) (k : String) (dflt : PyVal) : Except PyErr PyVal :=
  match m with
  | .dict kvs => .ok ((dictLookup kvs k).getD dflt)
  | _ => .error .attributeError

/-- Truthiness-based Python `or` on two values (`a or b`). -/
def pyOr (a b : PyVal) : PyVal := if pyTruthy a then a else b

/-! ### String primitives (computable on `List Char`) -/

/-- Decimal digits to a natural number (`foldl` like Python `int`). -/
def digitsToNat : List Char → Option Nat
  | [] => Option.none
  | cs => cs.foldl (fun acc c =>
      match acc with
      | Option.none => Option.none
      | some n => if c.isDigit then some (n * 10 + (c.toNat - '0'.toNat)) else Option.none)
      (some 0)

/-- Parse an optionally negated decimal integer literal (model of
`int(s)` on well-formed input; `int` raises `ValueError` otherwise). -/
def parseIntLit (s : String) : Option Int :=
  match s.data with
  | '-' :: rest => (digitsToNat rest).map (fun n => -(n : Int))
  | cs => (digitsToNat cs).map (fun n => (n : Int))

/-- Python `str.split(sep)` for a one-character separator. -/
def splitOnChar (c : Char) : List Char → List (List Char)
  | [] => [[]]
  | x :: xs =>
      let rest := splitOnChar c xs
      if x = c then [] :: rest
      else match rest with
        | [] => [[x]]
        | r :: rs => (x :: r) :: rs

/-- Parse a decimal float literal `d+[.d+]` with optional sign (model of
`float(s)` on well-formed input). -/
def parseFloatLit (s : String) : Option Rat :=
  let core : List Char → Option Rat := fun cs =>
    match splitOnChar '.' cs with
    | [w] => (digitsToNat w).map (fun n => (n : Rat))
    | [w, f] =>
        match digitsToNat w, digitsToNat f with
        | some n, some m => some ((n : Rat) + (m : Rat) / ((10 : Rat) ^ f.length))
        | _, _ => Option.none
    | _ => Option.none
  match s.data with
  | '-' :: rest => (core rest).map (fun q => -q)
  | cs => core cs

/-- Python `needle in haystack` on strings (substring containment). -/
def containsSub (needle : List Char) : List Char → Bool
  | [] => needle.isEmpty
  | c :: rest => needle.isPrefixOf (c :: rest) || containsSub needle rest

/-- Python `str.replace(pat, repl)` (left to right, non-overlapping); the
pattern is passed as head and tail so it is syntactically non-empty. -/
def replaceAllSub (p : Char) (ps repl : List Char) : List Char → List Char
  | [] => []
  | c :: rest =>
      if (p :: ps).isPrefixOf (c :: rest) then
        repl ++ replaceAllSub p ps repl ((c :: rest).drop (p :: ps).length)
      else
        c :: replaceAllSub p ps repl rest
termination_by l => l.length
decreasing_by
  · simp [List.length_drop]; omega
  · simp

/-- Python `str.lower()` (ASCII model). -/
def lowerStr (s : String) : String := ⟨s.data.map Char.toLower⟩

/-- Python `str.strip()` (whitespace at both ends). -/
def stripStr (s : String) : String :=
  ⟨(s.data.dropWhile Char.isWhitespace).reverse.dropWhile Char.isWhitespace |>.reverse⟩

/-- Model of `re.search(r"\[.*\]", s, re.DOTALL)`: the greedy match runs
from the first `[` in `s` to the last `]` after it; `Option.none` when no
such pair exists. -/
def extractBracketed (s : String) : Option String :=
  let after := s.data.dropWhile (· ≠ '[')
  if after.isEmpty then Option.none
  else
    let upto := (after.reverse.dropWhile (· ≠ ']')).reverse
    if upto.isEmpty then Option.none else some ⟨upto⟩

/-- Python `str(v)` as used on scalar-ish values by the orchestrator
(`to_str`, skill/keyword collection, research-area coercion). The rendering
of containers is only ever embedded into oracle prompts, never inspected. -/
def pyStrOf : PyVal → String
  | .none => "None"
  | .bool b => if b then "True" else "False"
  | .int n => toString n
  | .float q => toString q
  | .str s => s
  | .list _ => "[...]"
  | .dict _ => "..."

/-! ### Data model (`app/models/schemas.py`)

Pydantic models become structures. Timestamps are seconds since the epoch
(`Int`); UUIDs are their string rendering (`str(p.id)` is the identity). -/

/-- `schemas.Publication`. -/
structure Publication where
  title : String
  authors : List String
  year : Int
  venue : Option String := Option.none
  abstract : Option String := Option.none
  citation_count : Int := 0
  url : Option String := Option.none
  deriving Repr, DecidableEq

/-- `schemas.CitationMetrics`. -/
structure CitationMetrics where
  h_index : Int := 0
  i10_index : Int := 0
  total_citations : Int := 0
  deriving Repr, DecidableEq

/-- `schemas.ProfessorProfile`. -/
structure ProfessorProfile where
  id : String
  name : String
  title : Option String := Option.none
  department : Option String := Option.none
  university : String
  email : Option String := Option.none
  scholar_id : Option String := Option.none
  google_scholar_url : Option String := Option.none
  research_areas : List String := []
  publications : List Publication := []
  citation_metrics : Option CitationMetrics := Option.none
  last_updated : Int
  deriving Repr, DecidableEq

/-- `schemas.Education`. -/
structure Education where
  institution : String
  degree : String
  field : Option String := Option.none
  year : Option Int := Option.none
  deriving Repr, DecidableEq

/-- `schemas.Experience`. -/
structure Experience where
  organization : String
  role : String
  description : Option String := Option.none
  start_year : Option Int := Option.none
  end_year : Option Int := Option.none
  deriving Repr, DecidableEq

/-- `schemas.StudentProfile`. -/
structure StudentProfile where
  session_id : String
  stated_interests : List String := []
  education : List Education := []
  experience : List Experience := []
  publications : List Publication := []
  skills : List String := []
  extracted_keywords : List String := []
  deriving Repr, DecidableEq

/-- `schemas.MatchResult`. -/
structure MatchResult where
  professor : ProfessorProfile
  match_score : Rat
  alignment_reasons : List String
  relevant_publications : List Publication := []
  shared_keywords : List String := []
  recommendation_text : String
  deriving Repr, DecidableEq

/-! ### Tool Gateway (`app/services/mcp_client.py`)

`MCPServerManager.call_tool` is modelled over an abstract transport
outcome: the underlying `session.call_tool` either raises, returns no
content, or returns a first content item with a text payload. `json.loads`
is the stdlib decoder, modelled as an oracle (`Option.none` is
`json.JSONDecodeError`). -/

/-- Outcome of the underlying `session.call_tool` transport call. -/
inductive ToolTransport where
  | raise
  | noContent
  | contentText (t : String)
  deriving Repr

/-- `MCPServerManager.call_tool`: session lookup, transport call, JSON
decode, with every failure swallowed into an empty dict. -/
def call_tool (sessionFound : Bool) (transport : ToolTransport)
    (jsonLoads : String → Option PyVal) : PyVal :=
  if !sessionFound then .dict []
  else
    match transport with
    | .raise => .dict []
    | .noContent => .dict []
    | .contentText t =>
        match jsonLoads t with
        | some v => v
        | Option.none => .dict [("raw", .str t)]

/-- The `result if isinstance(result, list) else []` coercion shared by the
array-shaped client wrappers (`search_scholar`, `get_publications`,
`search_web`, `get_coauthors`, ...). -/
def coerceList (v : PyVal) : PyVal :=
  match v with
  | .list xs => .list xs
  | _ => .list []

/-- `ScholarClient.search_scholar` applied to a gateway result. -/
def search_scholar_wrap (v : PyVal) : PyVal := coerceList v

/-- `ScholarClient.get_publications` applied to a gateway result. -/
def get_publications_wrap (v : PyVal) : PyVal := coerceList v

/-- `ScholarClient.get_citation_metrics` applied to a gateway result
(returned as-is). -/
def get_citation_metrics_wrap (v : PyVal) : PyVal := v

/-- `UniversityClient.get_professor_page` applied to a gateway result
(returned as-is). -/
def get_professor_page_wrap (v : PyVal) : PyVal := v

/-- `UniversityClient.search_faculty` applied to a gateway result: the
source reads `return result if isinstance(result, list) else result`, so
both branches return the result unchanged. -/
def search_faculty_wrap (v : PyVal) : PyVal :=
  match v with
  | .list xs => .list xs
  | other => other

/-- `UniversityClient.search_web` applied to a gateway result. -/
def search_web_wrap (v : PyVal) : PyVal := coerceList v

/-- `DocumentClient.parse_cv` applied to a gateway result (returned
as-is). -/
def parse_cv_wrap (v : PyVal) : PyVal := v

/-- Modelled from the spec: `SearchClient.find_google_scholar_url` is
imported by the orchestrator but its class body is not among the source
files; section 6 declares `find_google_scholar_url(name, domain) →
string?`, and section 4.1 requires failures to degrade to an empty value,
so the wrapper keeps a string result and maps everything else to no
value. -/
def find_google_scholar_url_wrap (v : PyVal) : Option String :=
  match v with
  | .str s => some s
  | _ => Option.none

/-- Modelled from the spec: `scrape_google_scholar_metrics` is called on
the scholar client but its wrapper is not among the source files; section
6 declares `scrape_google_scholar_metrics(url) → object (h_index,
total_citations, or error)`, so the wrapper returns the gateway result
as-is (the object shape, like `get_citation_metrics`). -/
def scrape_google_scholar_metrics_wrap (v : PyVal) : PyVal := v

/-! ### Cache Store (`app/services/cache.py`)

The `professor_cache` table is a list of rows; `scalar_one_or_none`
raises `MultipleResultsFound` on more than one hit. Time is in seconds;
`timedelta(days=7)` is 604800 seconds. -/

/-- A `ProfessorCache` ORM row. -/
structure CacheRow where
  id : String
  name : String
  university : String
  department : Option String := Option.none
  title : Option String := Option.none
  email : Option String := Option.none
  scholar_id : Option String := Option.none
  research_areas : List String := []
  publications : List Publication := []
  citation_metrics : Option CitationMetrics := Option.none
  updated_at : Int
  deriving Repr, DecidableEq

/-- `CACHE_TTL_DAYS` converted to seconds (`timedelta(days=7)`). -/
def CACHE_TTL_SECONDS : Int := 7 * 86400

/-- `cache._cache_to_profile`. -/
def _cache_to_profile (c : CacheRow) : ProfessorProfile :=
  { id := c.id
    name := c.name
    university := c.university
    department := c.department
    title := c.title
    email := c.email
    scholar_id := c.scholar_id
    research_areas := c.research_areas
    publications := c.publications
    citation_metrics := c.citation_metrics
    last_updated := c.updated_at }

/-- The row filter of the cache `SELECT`: key equality and strict
freshness. -/
def cacheHit (name university : String) (now : Int) (c : CacheRow) : Bool :=
  c.name == name && c.university == university &&
    decide (now - CACHE_TTL_SECONDS < c.updated_at)

/-- `cache.get_cached_professor`: the `SELECT ... WHERE name = ... AND
university = ... AND updated_at > utcnow() - timedelta(days=7)` filter
followed by `scalar_one_or_none`. -/
def get_cached_professor (db : List CacheRow) (now : Int)
    (name university : String) : Except PyErr (Option ProfessorProfile) :=
  let hits := db.filter (cacheHit name university now)
  match hits with
  | [] => .ok Option.none
  | [c] => .ok (some (_cache_to_profile c))
  | _ => .error .multipleResultsFound

/-! ### Session store (`app/services/redis.py`)

`set_session` stores a JSON dump of a dict and `get_session` decodes it;
the round trip is the identity on the dict values the pipeline stores, so
the store is modelled as an association list from session id to `PyVal`. -/

/-- The session store (Redis or the in-memory fallback). -/
def Store := List (String × PyVal)

/-- `redis.get_session`. -/
def get_session (store : Store) (session_id : String) : Option PyVal :=
  match store with
  | [] => Option.none
  | (k, v) :: rest => if k = session_id then some v else get_session rest session_id

/-- `redis.set_session`. -/
def set_session (store : Store) (session_id : String) (v : PyVal) : Store :=
  match store with
  | [] => [(session_id, v)]
  | (k, w) :: rest =>
      if k = session_id then (session_id, v) :: rest
      else (k, w) :: set_session rest session_id v

/-! ### External environment

The collaborators the orchestrator suspends on, as deterministic response
functions at the client-wrapper level (the wrappers themselves are embedded
above; the coercions they guarantee are reflected in the result types
below, e.g. `searchScholar` always hands back a list). `freshUuid` models
`uuid4()` deterministically per candidate; `utcnow`/`timeTime` model the
clock; `validEmail` models the pydantic `EmailStr` validator; `jsonLoads`
models stdlib `json.loads` (with `Option.none` for a decode error). -/
structure Env where
  searchWeb : String → List String
  searchFaculty : String → String → PyVal
  getProfessorPage : PyVal → PyVal
  searchScholar : PyVal → List PyVal
  getPublications : PyVal → List PyVal
  findGSUrl : String → String → Option String
  scrapeGSMetrics : String → PyVal
  parseCV : String → PyVal
  generateText : String → String
  jsonLoads : String → Option PyVal
  validEmail : String → Bool
  getFilePath : String → String → Except PyErr (Option String)
  getCached : PyVal → String → Except PyErr (Option ProfessorProfile)
  freshUuid : PyVal → String
  utcnow : Int
  timeTime : Rat

/-! ### Pydantic field validations (v2 lax mode)

`toStrVE` and friends model the validation pydantic performs when a model
is constructed; a failed validation is a `ValidationError`, a subclass of
`ValueError`, hence `.valueError` (not caught by `generate_matches`). -/

/-- A `str` field. -/
def toStrVE : PyVal → Except PyErr String
  | .str s => .ok s
  | _ => .error .valueError

/-- A `str | None` field. -/
def toOptStrVE : PyVal → Except PyErr (Option String)
  | .none => .ok Option.none
  | .str s => .ok (some s)
  | _ => .error .valueError

/-- An `int` field: exact ints, integral floats and decimal strings are
accepted, everything else is rejected. -/
def toIntVE : PyVal → Except PyErr Int
  | .int n => .ok n
  | .float q => if q.den = 1 then .ok q.num else .error .valueError
  | .str s => match parseIntLit s with
      | some n => .ok n
      | Option.none => .error .valueError
  | _ => .error .valueError

/-- A `list[str]` field. -/
def toStrListVE (v : PyVal) : Except PyErr (List String) :=
  match v with
  | .list xs => xs.mapM toStrVE
  | _ => .error .valueError

/-- An `EmailStr | None` field: the email-validator collaborator decides
string validity. -/
def emailFieldVE (env : Env) : PyVal → Except PyErr (Option String)
  | .none => .ok Option.none
  | .str s => if env.validEmail s then .ok (some s) else .error .valueError
  | _ => .error .valueError

/-- Python `float(v)`: ints, floats and bools convert; numeric strings
parse (`ValueError` otherwise); `None`, lists and dicts raise
`TypeError`. -/
def pyFloat : PyVal → Except PyErr Rat
  | .int n => .ok (n : Rat)
  | .float q => .ok q
  | .bool b => .ok (if b then 1 else 0)
  | .str s => match parseFloatLit (stripStr s) with
      | some q => .ok q
      | Option.none => .error .valueError
  | _ => .error .typeError

/-- Truncation toward zero (`int(f)` on a float). -/
def ratTrunc (q : Rat) : Int := if q < 0 then -((-q).floor) else q.floor

/-- Join strings with a separator (`sep.join(parts)`). -/
def joinSep (sep : String) : List String → String
  | [] => ""
  | [x] => x
  | x :: xs => x ++ sep ++ joinSep sep xs

/-! ### Orchestrator scalar helpers (`to_str`, `to_list`, `to_int`) -/

/-- `orchestrator.to_str`. -/
def to_str : PyVal → Option String
  | .none => Option.none
  | .list xs => some (joinSep "; " (xs.map pyStrOf))
  | v => some (pyStrOf v)

/-- `orchestrator.to_list`. -/
def to_list : PyVal → List String
  | .none => []
  | .list xs => xs.map pyStrOf
  | .str s => (splitOnChar ',' s.data).map (fun cs => stripStr ⟨cs⟩)
  | v => [pyStrOf v]

/-- `orchestrator.to_int`. -/
def to_int : PyVal → Int
  | .none => 0
  | .int n => n
  | .bool b => if b then 1 else 0
  | .float q => ratTrunc q
  | .str s => (parseIntLit (stripStr s)).getD 0
  | _ => 0

/-! ### `parse_student_documents` -/

/-- Python `for x in v` as a value list: lists yield elements, strings
yield one-character strings, dicts yield their keys; everything else
raises `TypeError`. -/
def pyIterate : PyVal → Except PyErr (List PyVal)
  | .list xs => .ok xs
  | .str s => .ok (s.data.map (fun c => .str ⟨[c]⟩))
  | .dict kvs => .ok (kvs.map (fun kv => .str kv.1))
  | _ => .error .typeError

/-- Entry lookup with a `None` default (`get` on an entry list already
known to be a dict). -/
def kvGet (kvs : List (String × PyVal)) (k : String) : PyVal :=
  (dictLookup kvs k).getD .none

/-- One `Education(...)` row built from a CV education dict. -/
def eduOf (kvs : List (String × PyVal)) : Education :=
  { institution := (to_str (kvGet kvs "institution")).getD ""
    degree := (to_str (kvGet kvs "degree")).getD ""
    field := to_str (kvGet kvs "field")
    year := let n := to_int (kvGet kvs "year")
            if n = 0 then Option.none else some n }

/-- One `Experience(...)` row built from a CV experience dict. -/
def expOf (kvs : List (String × PyVal)) : Experience :=
  { organization := (to_str (kvGet kvs "organization")).getD ""
    role := (to_str (kvGet kvs "role")).getD ""
    description := to_str (kvGet kvs "description")
    start_year := let n := to_int (kvGet kvs "start_year")
                  if n = 0 then Option.none else some n
    end_year := let n := to_int (kvGet kvs "end_year")
                if n = 0 then Option.none else some n }

/-- One CV `Publication(...)` row (only title/authors/year/venue are
taken from the CV parser output). -/
def cvPubOf (kvs : List (String × PyVal)) : Publication :=
  { title := (to_str (kvGet kvs "title")).getD ""
    authors := to_list (kvGet kvs "authors")
    year := to_int (kvGet kvs "year")
    venue := to_str (kvGet kvs "venue") }

/-- The dict elements of an iterated collection (non-dict elements are
skipped by the `isinstance(..., dict)` guards). -/
def dictElems (xs : List PyVal) : List (List (String × PyVal)) :=
  xs.filterMap (fun v => match v with | .dict kvs => some kvs | _ => Option.none)

/-- `parse_single_file` inside `parse_student_documents`. -/
def parse_single_file (env : Env) (session_id file_id : String) : Except PyErr PyVal :=
  match env.getFilePath session_id file_id with
  | .error e => .error e
  | .ok Option.none => .ok .none
  | .ok (some p) => .ok (env.parseCV p)

/-- Accumulator for the CV-processing loop. -/
structure CVAcc where
  education : List Education := []
  experience : List Experience := []
  publications : List Publication := []
  skills : List String := []
  keywords : List String := []

/-- Process one parsed CV dict (one loop iteration of
`parse_student_documents`). -/
def processCV (acc : CVAcc) (kvs : List (String × PyVal)) : Except PyErr CVAcc := do
  let eduIter ← pyIterate (pyOr (kvGet kvs "education") (.list []))
  let expIter ← pyIterate (pyOr (kvGet kvs "experience") (.list []))
  let pubIter ← pyIterate (pyOr (kvGet kvs "publications") (.list []))
  let rawSkills := (dictLookup kvs "skills").getD (.list [])
  let skillsAdd := match rawSkills with
    | .list xs => (xs.filter pyTruthy).map pyStrOf
    | v => if pyTruthy v then to_list v else []
  let rawInterests := (dictLookup kvs "research_interests").getD (.list [])
  let keywordsAdd := match rawInterests with
    | .list xs => (xs.filter pyTruthy).map pyStrOf
    | v => if pyTruthy v then to_list v else []
  pure { education := acc.education ++ (dictElems eduIter).map eduOf
         experience := acc.experience ++ (dictElems expIter).map expOf
         publications := acc.publications ++ (dictElems pubIter).map cvPubOf
         skills := acc.skills ++ skillsAdd
         keywords := acc.keywords ++ keywordsAdd }

/-- The loop over gathered per-file results: exceptions and non-dict
results are skipped by the `isinstance(result, dict)` guard. -/
def processCVResults (acc : CVAcc) : List (Except PyErr PyVal) → Except PyErr CVAcc
  | [] => .ok acc
  | .ok (.dict kvs) :: rest => do
      let acc' ← processCV acc kvs
      processCVResults acc' rest
  | _ :: rest => processCVResults acc rest

/-- `orchestrator.parse_student_documents`. `list(set(...))` deduplication
is modelled as first-occurrence dedup (the CPython set order is
hash-dependent and only ever feeds prompt text). -/
def parse_student_documents (env : Env) (session_id : String)
    (file_ids : List String) (research_interests : List String) :
    Except PyErr StudentProfile := do
  let results := file_ids.map (parse_single_file env session_id)
  let acc ← processCVResults {} results
  pure { session_id := env.freshUuid .none
         stated_interests := research_interests
         education := acc.education
         experience := acc.experience
         publications := acc.publications
         skills := acc.skills.dedup
         extracted_keywords := (research_interests ++ acc.keywords).dedup }

/-! ### Faculty Discovery -/

/-- Split at the first occurrence of a separator substring. -/
def splitFirstSub (sep : List Char) : List Char → Option (List Char × List Char)
  | [] => if sep.isEmpty then some ([], []) else Option.none
  | c :: rest =>
      if sep.isPrefixOf (c :: rest) then some ([], (c :: rest).drop sep.length)
      else (splitFirstSub sep rest).map (fun pr => (c :: pr.1, pr.2))

/-- `urlparse(url).netloc`: empty when the URL carries no scheme. -/
def urlNetloc (url : String) : String :=
  match splitFirstSub "://".data url.data with
  | Option.none => ""
  | some (_, rest) => ⟨rest.takeWhile (· ≠ '/')⟩

/-- `urlparse(url).path`: the whole string when no scheme is present
(query strings and fragments do not occur in the pipeline inputs). -/
def urlPath (url : String) : String :=
  match splitFirstSub "://".data url.data with
  | Option.none => url
  | some (_, rest) => ⟨rest.dropWhile (· ≠ '/')⟩

/-- `netloc.replace("www.", "")`. -/
def stripWWW (s : String) : String := ⟨replaceAllSub 'w' "ww.".data [] s.data⟩

/-- `orchestrator._extract_domain`. -/
def _extract_domain (url : String) : String :=
  ⟨(splitOnChar '/' (stripWWW (urlNetloc url)).data).headD []⟩

/-- The scheme test in `discover_faculty_url`
(`university.startswith(("http://", "https://"))`). -/
def hasScheme (u : String) : Bool :=
  "http://".data.isPrefixOf u.data || "https://".data.isPrefixOf u.data

/-- The https-normalization at the top of `discover_faculty_url`. -/
def normalizeUniversity (university : String) : String :=
  if hasScheme university then university else "https://" ++ university

/-- The web-search query `discover_faculty_url` issues for one interest
branch (base domain with `www.` stripped). -/
def discovery_query (university interest : String) : String :=
  let domain := stripWWW (urlNetloc (normalizeUniversity university))
  if interest ≠ "" then interest ++ " faculty directory " ++ domain
  else "Computer Science faculty directory " ++ domain

/-- `orchestrator.discover_faculty_url`. -/
def discover_faculty_url (env : Env) (university interest : String) : List String :=
  let uni := normalizeUniversity university
  let path := lowerStr (urlPath uni)
  let explicit_keywords := ["faculty", "staff", "people", "directory", "team", "professors"]
  if explicit_keywords.any (fun k => containsSub k.data path.data) then
    [uni]
  else
    let urls := env.searchWeb (discovery_query university interest)
    if urls.isEmpty then [uni] else urls

/-- The inner URL loop of the `(url, interest)` pair construction: append
each not-yet-seen URL of one branch, threading the seen set. -/
def addBranchUrls (seen : List String) (interest : String) :
    List String → List String × List (String × String)
  | [] => (seen, [])
  | u :: us =>
      if seen.contains u then addBranchUrls seen interest us
      else
        let (seen', pairs) := addBranchUrls (u :: seen) interest us
        (seen', (u, interest) :: pairs)

/-- The `(url, interest)` fan-out list of `fetch_faculty`: zip interests
with their gathered discovery results, skip raised branches, deduplicate
URLs first-wins. -/
def build_search_pairs (seen : List String) :
    List (String × Except PyErr (List String)) → List (String × String)
  | [] => []
  | (_, .error _) :: rest => build_search_pairs seen rest
  | (interest, .ok urls) :: rest =>
      let (seen', pairs) := addBranchUrls seen interest urls
      pairs ++ build_search_pairs seen' rest

/-- `search_one` inside `fetch_faculty`: an error dict or unexpected shape
is zero faculty; list results keep the dict entries with a truthy name. -/
def search_one (env : Env) (url interest : String) : List PyVal :=
  match env.searchFaculty url interest with
  | .dict _ => []
  | .list xs =>
      xs.filter (fun f => match f with
        | .dict kvs => pyTruthy (kvGet kvs "name")
        | _ => false)
  | _ => []

/-- The final name-based dedup loop of `fetch_faculty` (first occurrence
wins, name compared with Python `==`; `search_one` only emits dicts, so
the name of a non-dict entry is never consulted). -/
def dedup_by_name (seen : List PyVal) : List PyVal → List PyVal
  | [] => []
  | f :: rest =>
      let name := match f with
        | .dict kvs => (dictLookup kvs "name").getD (.str "")
        | _ => .str ""
      if pyTruthy name && !seen.contains name then
        f :: dedup_by_name (name :: seen) rest
      else
        dedup_by_name seen rest

/-- `orchestrator.fetch_faculty`. Both gathers preserve task order; the
discovery branches cannot raise (their tool calls are swallowed by the
gateway), but the model keeps the `isinstance(result, Exception)` guard
through the `Except` in `build_search_pairs`. -/
def fetch_faculty (env : Env) (university : String)
    (research_interests : List String) : List PyVal :=
  let branches := (research_interests.take 3).map
    (fun i => (i, (.ok (discover_faculty_url env university i) : Except PyErr (List String))))
  let pairs := build_search_pairs [] branches
  let all_faculty := (pairs.map (fun p => search_one env p.1 p.2)).flatten
  dedup_by_name [] all_faculty

/-! ### Relevance Filter (`filter_faculty_by_relevance`) -/

/-- One indexed summary line (`"[i] Name - Title (Department)"`, the parts
joined by single spaces as in the source). -/
def faculty_summary (i : Nat) (f : PyVal) : Except PyErr String := do
  let name ← pyGet f "name" (.str "Unknown")
  let t ← pyGet f "title" .none
  let d ← pyGet f "department" .none
  let base := "[" ++ toString i ++ "] " ++ pyStrOf name
  let withT := if pyTruthy t then base ++ " - " ++ pyStrOf t else base
  pure (if pyTruthy d then withT ++ " (" ++ pyStrOf d ++ ")" else withT)

/-- The filtering prompt (interest string and summary block embedded). -/
def mk_filter_prompt (interests_str faculty_list : String) : String :=
  "From this faculty list, select the 30 professors most likely to research: "
    ++ interests_str ++ "\n\nFaculty:\n" ++ faculty_list
    ++ "\n\nReturn ONLY a JSON array of the index numbers. No other text."

/-- The index-selection loop: `isinstance(i, int)` admits bools (a Python
bool is an int), indices are kept when in range. -/
def select_by_indices (faculty_data : List PyVal) (indices : List PyVal) : List PyVal :=
  indices.filterMap (fun i =>
    match i with
    | .int n => if 0 ≤ n ∧ n < faculty_data.length then faculty_data.get? n.toNat else Option.none
    | .bool b => let n : Nat := if b then 1 else 0
                 if n < faculty_data.length then faculty_data.get? n else Option.none
    | _ => Option.none)

/-- `orchestrator.filter_faculty_by_relevance`: pass-through at 30 or
fewer candidates; otherwise ask the oracle for an index array and fall
back to the first 30 on any parse failure or empty selection. -/
def filter_faculty_by_relevance (env : Env) (faculty_data : List PyVal)
    (research_interests : List String) : Except PyErr (List PyVal) :=
  if faculty_data.length ≤ 30 then .ok faculty_data
  else do
    let summaries ← (faculty_data.enum.map (fun p => faculty_summary p.1 p.2)).mapM id
    let prompt := mk_filter_prompt (joinSep ", " research_interests) (joinSep "\n" summaries)
    let response := env.generateText prompt
    match extractBracketed response with
    | Option.none => .ok (faculty_data.take 30)
    | some sub =>
        match env.jsonLoads sub with
        | Option.none => .ok (faculty_data.take 30)
        | some (.list indices) =>
            let selected := select_by_indices faculty_data indices
            if selected.isEmpty then .ok (faculty_data.take 30) else .ok selected
        | some _ => .ok (faculty_data.take 30)

/-! ### Profile Enrichment (`enrich_single_professor`, `enrich_professors`) -/

/-- The affiliation loop of the disambiguation filter: `aff.lower()`
raises `AttributeError` on a non-string element; a match is any derived
keyword occurring as a substring of the lowercased affiliation. -/
def affiliationsMatch (kw : List String) : List PyVal → Except PyErr Bool
  | [] => .ok false
  | a :: rest =>
      match a with
      | .str s =>
          if kw.any (fun k => containsSub k.data (lowerStr s).data) then .ok true
          else affiliationsMatch kw rest
      | _ => .error .attributeError

/-- Whether one scholar candidate passes the domain filter
(`cand.get("affiliations", [])`, skip when falsy, then the affiliation
loop; iterating a string yields characters, a dict its keys). -/
def candidateMatches (kw : List String) (cand : PyVal) : Except PyErr Bool := do
  let affs ← pyGet cand "affiliations" (.list [])
  if !pyTruthy affs then pure false
  else
    match affs with
    | .list xs => affiliationsMatch kw xs
    | .str s => affiliationsMatch kw (s.data.map (fun c => .str ⟨[c]⟩))
    | .dict kvs => affiliationsMatch kw (kvs.map (fun kv => .str kv.1))
    | _ => .error .typeError

/-- First candidate passing the domain filter, in search order. -/
def findFirstMatch (kw : List String) : List PyVal → Except PyErr (Option PyVal)
  | [] => .ok Option.none
  | c :: rest => do
      let b ← candidateMatches kw c
      if b then pure (some c) else findFirstMatch kw rest

/-- The disambiguation block of `enrich_single_professor`: `scholar` stays
`None` only for an empty candidate list; otherwise the first
affiliation-matching candidate, with `candidates[0]` as fallback. -/
def disambiguate (candidates : List PyVal) (kw : List String) :
    Except PyErr (Option PyVal) :=
  match candidates with
  | [] => .ok Option.none
  | c0 :: _ => do
      let m ← findFirstMatch kw candidates
      match m with
      | some c => pure (some c)
      | Option.none => pure (some c0)

/-- `Publication(...)` built from one scholar-server publication dict. -/
def pubOfPy (p : PyVal) : Except PyErr Publication := do
  let title ← toStrVE (← pyGet p "title" (.str ""))
  let authors ← toStrListVE (← pyGet p "authors" (.list []))
  let year ← toIntVE (← pyGet p "year" (.int 0))
  let venue ← toOptStrVE (← pyGet p "venue" .none)
  let abstract ← toOptStrVE (← pyGet p "abstract" .none)
  let citation_count ← toIntVE (← pyGet p "citation_count" (.int 0))
  let url ← toOptStrVE (← pyGet p "url" .none)
  pure { title := title, authors := authors, year := year, venue := venue
         abstract := abstract, citation_count := citation_count, url := url }

/-- The research-area extraction prompt. -/
def mk_areas_prompt (titles_str : String) : String :=
  "From these publication titles, extract 3-7 research areas/topics.\n\nPublications:\n"
    ++ titles_str ++ "\n\nReturn ONLY a JSON array of strings. No other text."

/-- `orchestrator.extract_research_areas`: LLM call, first bracketed array,
truthy-list check, first 7 entries stringified; every failure degrades to
an empty list. -/
def extract_research_areas (env : Env) (publications : List Publication) : List String :=
  if publications.isEmpty then []
  else
    let titles := (publications.take 15).map (·.title)
    let response := env.generateText (mk_areas_prompt (joinSep "\n" (titles.map ("- " ++ ·))))
    match extractBracketed response with
    | Option.none => []
    | some sub =>
        match env.jsonLoads sub with
        | Option.none => []
        | some v =>
            if pyTruthy v then
              match v with
              | .list xs => (xs.take 7).map pyStrOf
              | _ => []
            else []

/-- The comma-split coercion applied when a profile page returns
`research_areas` as a string. -/
def splitResearchAreas (s : String) : List String :=
  ((splitOnChar ',' s.data).map (fun cs => stripStr ⟨cs⟩)).filter (· ≠ "")

/-- `orchestrator.enrich_single_professor`. The returned pair is the
function result together with the list of profiles upserted into the
Cache Store (`cache_professor` calls). -/
def enrich_single_professor (env : Env) (faculty : PyVal) (university : String)
    (domain_keywords : List String) :
    Except PyErr (Option ProfessorProfile × List ProfessorProfile) := do
  let name ← pyGet faculty "name" (.str "")
  if !pyTruthy name then pure (Option.none, [])
  else do
    let cached ← env.getCached name university
    match cached with
    | some p => pure (some p, [])
    | Option.none => do
        let candidates := env.searchScholar name
        let scholar ← disambiguate candidates domain_keywords
        match scholar with
        | Option.none => do
            let profile_url ← pyGet faculty "profile_url" .none
            let extra_data := if pyTruthy profile_url then env.getProfessorPage profile_url
                              else .dict []
            let raRaw ← pyGet extra_data "research_areas" .none
            let research_areas ← (match pyOr raRaw (.list []) with
              | .str s => .ok (splitResearchAreas s)
              | v => toStrListVE v)
            let nm ← toStrVE name
            let title ← toOptStrVE (pyOr (← pyGet faculty "title" .none) (← pyGet extra_data "title" .none))
            let department ← toOptStrVE (pyOr (← pyGet faculty "department" .none) (← pyGet extra_data "department" .none))
            let email ← emailFieldVE env (pyOr (← pyGet faculty "email" .none) (← pyGet extra_data "email" .none))
            let prof : ProfessorProfile :=
              { id := env.freshUuid faculty, name := nm, title := title
                department := department, university := university, email := email
                research_areas := research_areas, publications := []
                last_updated := env.utcnow }
            pure (some prof, [prof])
        | some scholar => do
            let scholar_id ← pyGet scholar "author_id" .none
            let pubs_data := if pyTruthy scholar_id then env.getPublications scholar_id else []
            let publications ← pubs_data.mapM pubOfPy
            let citation_metrics : CitationMetrics := { h_index := 0, total_citations := 0 }
            let research_areas := extract_research_areas env publications
            let nm ← toStrVE name
            let title ← toOptStrVE (← pyGet faculty "title" .none)
            let department ← toOptStrVE (← pyGet faculty "department" .none)
            let email ← emailFieldVE env (← pyGet faculty "email" .none)
            let sid ← toOptStrVE scholar_id
            let prof : ProfessorProfile :=
              { id := env.freshUuid faculty, name := nm, title := title
                department := department, university := university, email := email
                scholar_id := sid, research_areas := research_areas
                publications := publications, citation_metrics := some citation_metrics
                last_updated := env.utcnow }
            pure (some prof, [prof])

/-- The derived domain keywords of `enrich_professors`: netloc split on
dots, stop-set removed, tokens of length at most 2 removed. -/
def domain_keywords_of (university : String) : List String :=
  let domain := _extract_domain university
  let parts := (splitOnChar '.' (lowerStr domain).data).map (fun cs => (⟨cs⟩ : String))
  let ignore : List String := ["www", "ac", "za", "edu", "uk", "us", "com", "org", "net", "depts", "dept"]
  parts.filter (fun p => ¬ p ∈ ignore ∧ p.length > 2)

/-- `orchestrator.enrich_professors`: fan-out (order preserved by gather,
admission bounded by `Semaphore(20)`, see `SemStep`), then keep exactly
the `ProfessorProfile` results — raised tasks and `None` results are
dropped. Second component: the concatenated cache upserts. -/
def enrich_professors (env : Env) (faculty_data : List PyVal) (university : String) :
    List ProfessorProfile × List ProfessorProfile :=
  let kw := domain_keywords_of university
  let results := faculty_data.map (fun f => enrich_single_professor env f university kw)
  (results.filterMap (fun r => match r with
      | .ok (some p, _) => some p
      | _ => Option.none),
   results.foldr (fun r acc => match r with
      | .ok (_, ws) => ws ++ acc
      | _ => acc) [])

/-! ### Match Ranking (`generate_matches`) -/

/-- The per-professor compact summary embedded in the ranking prompt
(the `json.dumps` rendering is abstracted to a field-for-field textual
form; the oracle is an arbitrary function of the prompt). -/
def prof_summary_str (p : ProfessorProfile) : String :=
  "id: " ++ p.id ++ " name: " ++ p.name
    ++ " title: " ++ (p.title.getD "None")
    ++ " department: " ++ (p.department.getD "None")
    ++ " research_areas: " ++ joinSep ", " (p.research_areas.take 5)
    ++ " recent_papers: " ++ joinSep "; " ((p.publications.take 5).map (·.title))
    ++ " h_index: " ++ toString (match p.citation_metrics with
        | some cm => cm.h_index
        | Option.none => 0)

/-- The optional student-background block of the ranking prompt. -/
def student_context_str : Option StudentProfile → String
  | Option.none => ""
  | some sp =>
      "\nStudent Background:\n- Education: "
        ++ joinSep "; " (sp.education.map (fun e => e.institution ++ " " ++ e.degree))
        ++ "\n- Skills: " ++ joinSep ", " sp.skills
        ++ "\n- Publications: " ++ toString sp.publications.length ++ " papers"
        ++ "\n- Keywords: " ++ joinSep ", " (sp.extracted_keywords.take 10) ++ "\n"

/-- The ranking prompt of `generate_matches`. -/
def mk_rank_prompt (professors : List ProfessorProfile)
    (research_interests : List String) (student_profile : Option StudentProfile) : String :=
  "Analyze professors and rank by research alignment with student interests.\n\nStudent Research Interests: "
    ++ joinSep ", " research_interests
    ++ student_context_str student_profile
    ++ "\n\nProfessors:\n" ++ joinSep "\n" (professors.map prof_summary_str)
    ++ "\n\nReturn JSON array (top 10 max). Return ONLY valid JSON array, no other text."

/-- `matches_data[:10]` followed by iteration: a decoded list is sliced,
a decoded string slices to characters, anything else raises `TypeError`
(caught by the surrounding handler). -/
def pySliceIter (v : PyVal) (n : Nat) : Except PyErr (List PyVal) :=
  match v with
  | .list xs => .ok (xs.take n)
  | .str s => .ok ((s.data.take n).map (fun c => .str ⟨[c]⟩))
  | _ => .error .typeError

/-- `prof_map.get(pid)` with string keys. -/
def profMapLookup (pm : List (String × ProfessorProfile)) (k : String) :
    Option ProfessorProfile :=
  match pm with
  | [] => Option.none
  | (k', p) :: rest => if k' = k then some p else profMapLookup rest k

/-- `p.title in container` for each of the professor publications
(`relevant_publications` selection): list membership by `==`, substring
test for a string container, key membership for a dict, `TypeError`
otherwise. -/
def filterRelevantPubs (pubs : List Publication) (container : PyVal) :
    Except PyErr (List Publication) :=
  match container with
  | .list xs => .ok (pubs.filter (fun p => xs.any (fun x => PyVal.beq x (.str p.title))))
  | .str s => .ok (pubs.filter (fun p => containsSub p.title.data s.data))
  | .dict kvs => .ok (pubs.filter (fun p => kvs.any (fun kv => kv.1 = p.title)))
  | _ => .error .typeError

/-- The entry loop of `generate_matches`: skip unresolvable professor ids,
raise `TypeError` on unhashable ids (caught upstream), `AttributeError` on
non-dict entries and `ValueError` on bad field shapes (both propagate). -/
def buildLoop (pm : List (String × ProfessorProfile)) :
    List PyVal → Except PyErr (List MatchResult)
  | [] => .ok []
  | m :: rest => do
      let pid ← pyGet m "professor_id" .none
      match pid with
      | .list _ => .error .typeError
      | .dict _ => .error .typeError
      | _ =>
          let prof? := match pid with
            | .str s => profMapLookup pm s
            | _ => Option.none
          match prof? with
          | Option.none => buildLoop pm rest
          | some prof => do
              let score ← pyFloat (← pyGet m "match_score" (.int 0))
              let relevant ← filterRelevantPubs prof.publications
                  (← pyGet m "relevant_publication_titles" (.list []))
              let reasons ← toStrListVE (← pyGet m "alignment_reasons" (.list []))
              let shared ← toStrListVE (← pyGet m "shared_keywords" (.list []))
              let recText ← toStrVE (← pyGet m "recommendation_text" (.str ""))
              let tail ← buildLoop pm rest
              pure ({ professor := prof, match_score := score
                      alignment_reasons := reasons, relevant_publications := relevant
                      shared_keywords := shared, recommendation_text := recText } :: tail)

/-- Insert keeping descending score order; an element is placed before the
first list element with a score less than or equal to its own. -/
def insertMatchDesc (x : MatchResult) : List MatchResult → List MatchResult
  | [] => [x]
  | y :: ys =>
      if y.match_score ≤ x.match_score then x :: y :: ys
      else y :: insertMatchDesc x ys

/-- `sorted(matches, key=lambda x: x.match_score, reverse=True)`: the
unique stable descending sort (insertion formulation; CPython sorted is
stable, and a stable descending sort is extensionally unique). -/
def sortMatchesDesc : List MatchResult → List MatchResult
  | [] => []
  | x :: xs => insertMatchDesc x (sortMatchesDesc xs)

/-- The pre-sort body of `generate_matches`: oracle call, bracket
extraction, JSON decode, entry loop, with `json.JSONDecodeError`,
`KeyError` and `TypeError` caught into an empty list. -/
def generate_matches_raw (env : Env) (professors : List ProfessorProfile)
    (research_interests : List String) (student_profile : Option StudentProfile) :
    Except PyErr (List MatchResult) :=
  if professors.isEmpty then .ok []
  else
    let response := env.generateText (mk_rank_prompt professors research_interests student_profile)
    match extractBracketed response with
    | Option.none => .ok []
    | some sub =>
        match env.jsonLoads sub with
        | Option.none => .ok []
        | some v =>
            let pm := professors.map (fun p => (p.id, p))
            match (do buildLoop pm (← pySliceIter v 10) :
                Except PyErr (List MatchResult)) with
            | .ok ms => .ok ms
            | .error .typeError => .ok []
            | .error .keyError => .ok []
            | .error .jsonDecodeError => .ok []
            | .error e => .error e

/-- `orchestrator.generate_matches`: the pre-sort body followed by the
stable descending sort. -/
def generate_matches (env : Env) (professors : List ProfessorProfile)
    (research_interests : List String) (student_profile : Option StudentProfile) :
    Except PyErr (List MatchResult) :=
  match generate_matches_raw env professors research_interests student_profile with
  | .ok ms => .ok (sortMatchesDesc ms)
  | .error e => .error e

/-! ### Post-Match Enrichment (`enrich_matches_with_google_scholar`) -/

/-- Whether an optional URL field is truthy (`if match.professor.google_scholar_url:`). -/
def optUrlTruthy : Option String → Bool
  | some s => s ≠ ""
  | Option.none => false

/-- The URL-backfill step of `enrich_one_match`: when the current URL is
falsy, a truthy search result is written into the profile. -/
def backfillUrl (env : Env) (domain : String) (prof : ProfessorProfile) :
    Option String :=
  if optUrlTruthy prof.google_scholar_url then prof.google_scholar_url
  else
    match env.findGSUrl prof.name domain with
    | some u => if u ≠ "" then some u else prof.google_scholar_url
    | Option.none => prof.google_scholar_url

/-- The metrics acceptance test: a truthy scrape result whose `error`
entry is falsy (`if metrics and not metrics.get("error")`), with integer
fields pydantic accepts. Failures inside the `try` leave the profile with
only the URL mutation (the in-place URL write has already happened). -/
def applyMetrics (env : Env) (prof : ProfessorProfile) (url : String) :
    ProfessorProfile :=
  match env.scrapeGSMetrics url with
  | .dict kvs =>
      if pyTruthy (.dict kvs) && !pyTruthy (kvGet kvs "error") then
        match toIntVE ((dictLookup kvs "h_index").getD (.int 0)),
              toIntVE ((dictLookup kvs "total_citations").getD (.int 0)) with
        | .ok h, .ok tc =>
            { prof with citation_metrics := some { h_index := h, total_citations := tc } }
        | _, _ => prof
      else prof
  | other =>
      if pyTruthy other then prof else prof

/-- The metric-scrape step of `enrich_one_match`: fires only on a truthy
known URL (`if match.professor.google_scholar_url:`). -/
def scrapeStep (env : Env) (prof1 : ProfessorProfile) : ProfessorProfile :=
  match prof1.google_scholar_url with
  | some u => if u ≠ "" then applyMetrics env prof1 u else prof1
  | Option.none => prof1

/-- `enrich_one_match`: URL backfill, then metric scrape when a truthy URL
is known; every exception is swallowed per item, and the URL mutation
survives a later metrics failure. -/
def enrich_one_match (env : Env) (domain : String) (m : MatchResult) : MatchResult :=
  { m with professor :=
      scrapeStep env { m.professor with google_scholar_url := backfillUrl env domain m.professor } }

/-- `orchestrator.enrich_matches_with_google_scholar`: the per-item
mutations of the gathered tasks, in list order. -/
def enrich_matches_with_google_scholar (env : Env) (ms : List MatchResult)
    (university : String) : List MatchResult :=
  let domain := _extract_domain university
  ms.map (enrich_one_match env domain)

/-! ### Pipeline Controller (`update_progress`, `run_matching`) -/

/-- `orchestrator.update_progress`: a truthy session dict gets its
`match_progress` and `current_step` entries written back; a missing or
falsy session is a silent no-op. -/
def update_progress (store : Store) (session_id : String) (progress : Int)
    (step : String) : Except PyErr Store :=
  match get_session store session_id with
  | Option.none => .ok store
  | some s =>
      if pyTruthy s then
        match s with
        | .dict kvs =>
            .ok (set_session store session_id
              (.dict (dictSet (dictSet kvs "match_progress" (.int progress))
                "current_step" (.str step))))
        | _ => .error .typeError
      else .ok store

/-- `model_dump(mode="json")` of an optional string. -/
def optStrToPy : Option String → PyVal
  | Option.none => .none
  | some s => .str s

/-- `model_dump(mode="json")` of a `Publication`. -/
def pubToPy (p : Publication) : PyVal :=
  .dict [("title", .str p.title), ("authors", .list (p.authors.map .str)),
         ("year", .int p.year), ("venue", optStrToPy p.venue),
         ("abstract", optStrToPy p.abstract),
         ("citation_count", .int p.citation_count), ("url", optStrToPy p.url)]

/-- `model_dump(mode="json")` of `CitationMetrics`. -/
def cmToPy (c : CitationMetrics) : PyVal :=
  .dict [("h_index", .int c.h_index), ("i10_index", .int c.i10_index),
         ("total_citations", .int c.total_citations)]

/-- `model_dump(mode="json")` of a `ProfessorProfile` (the timestamp
renders through `toString`, standing in for the ISO form). -/
def profToPy (p : ProfessorProfile) : PyVal :=
  .dict [("id", .str p.id), ("name", .str p.name), ("title", optStrToPy p.title),
         ("department", optStrToPy p.department), ("university", .str p.university),
         ("email", optStrToPy p.email), ("scholar_id", optStrToPy p.scholar_id),
         ("google_scholar_url", optStrToPy p.google_scholar_url),
         ("research_areas", .list (p.research_areas.map .str)),
         ("publications", .list (p.publications.map pubToPy)),
         ("citation_metrics", match p.citation_metrics with
           | some c => cmToPy c
           | Option.none => .none),
         ("last_updated", .str (toString p.last_updated))]

/-- `m.model_dump(mode="json")` of a `MatchResult`. -/
def matchToPy (m : MatchResult) : PyVal :=
  .dict [("professor", profToPy m.professor), ("match_score", .float m.match_score),
         ("alignment_reasons", .list (m.alignment_reasons.map .str)),
         ("relevant_publications", .list (m.relevant_publications.map pubToPy)),
         ("shared_keywords", .list (m.shared_keywords.map .str)),
         ("recommendation_text", .str m.recommendation_text)]

/-- `time.time() - start_time` for a truthy stored start time: numeric
values subtract, anything else raises `TypeError`. -/
def timeDiff (now : Rat) : PyVal → Option Rat
  | .int n => some (now - (n : Rat))
  | .float q => some (now - q)
  | .bool b => some (now - (if b then 1 else 0))
  | _ => Option.none

/-- The final session commit of `run_matching` (the truthy-session guard,
the optional total-time computation, then status/progress/step/results). -/
def commit_results (env : Env) (store : Store) (session_id : String)
    (ms : List MatchResult) : Except PyErr Store :=
  match get_session store session_id with
  | Option.none => .ok store
  | some s =>
      if pyTruthy s then
        match s with
        | .dict kvs => do
            let kvs1 ←
              (let st := kvGet kvs "match_start_time"
               if pyTruthy st then
                 match timeDiff env.timeTime st with
                 | some q => .ok (dictSet kvs "total_match_time" (.float q))
                 | Option.none => .error .typeError
               else .ok kvs)
            let kvs2 := dictSet (dictSet (dictSet (dictSet kvs1
              "match_status" (.str "completed"))
              "match_progress" (.int 100))
              "current_step" (.str "Complete"))
              "match_results" (.list (ms.map matchToPy))
            .ok (set_session store session_id (.dict kvs2))
        | _ => .error .attributeError
      else .ok store

/-- The `if file_ids: student_profile = await parse_student_documents(...)`
step of `run_matching` (`None` and `[]` are falsy). -/
def student_profile_step (env : Env) (session_id : String)
    (research_interests : List String) (file_ids : Option (List String)) :
    Except PyErr (Option StudentProfile) :=
  match file_ids with
  | some (f :: fs) =>
      (parse_student_documents env session_id (f :: fs) research_interests).map some
  | _ => .ok Option.none

/-- `orchestrator.run_matching`: the full pipeline over a session store.
The Cache Store reads go through `env.getCached` and its upserts are kept
inside `enrich_professors`; within one run no two distinct candidates
share the `(name, university)` key (discovery dedups by name), so a static
read model is observationally faithful. -/
def run_matching (env : Env) (session_id university : String)
    (research_interests : List String) (file_ids : Option (List String))
    (store0 : Store) : Except PyErr (List MatchResult × Store) := do
  let store1 ← update_progress store0 session_id 5 "Parsing uploaded documents"
  let student_profile ← student_profile_step env session_id research_interests file_ids
  let store2 ← update_progress store1 session_id 15 "Fetching faculty directory"
  let faculty1 := fetch_faculty env university research_interests
  let store3 ← update_progress store2 session_id 25 "Filtering candidates"
  let faculty2 ← filter_faculty_by_relevance env faculty1 research_interests
  let store4 ← update_progress store3 session_id 30 "Retrieving publication data"
  let professors := (enrich_professors env faculty2 university).1
  let store5 ← update_progress store4 session_id 70 "Analyzing research alignment"
  let ms ← generate_matches env professors research_interests student_profile
  let store6 ← update_progress store5 session_id 90 "Fetching citation metrics"
  let ms2 := enrich_matches_with_google_scholar env ms university
  let store7 ← update_progress store6 session_id 95 "Finalizing recommendations"
  let store8 ← commit_results env store7 session_id ms2
  pure (ms2, store8)

/-- The session-free value of the pipeline (the same stage composition as
`run_matching`, with no session store in sight). -/
def pipeline_core (env : Env) (session_id university : String)
    (research_interests : List String) (file_ids : Option (List String)) :
    Except PyErr (List MatchResult) := do
  let student_profile ← student_profile_step env session_id research_interests file_ids
  let faculty1 := fetch_faculty env university research_interests
  let faculty2 ← filter_faculty_by_relevance env faculty1 research_interests
  let professors := (enrich_professors env faculty2 university).1
  let ms ← generate_matches env professors research_interests student_profile
  pure (enrich_matches_with_google_scholar env ms university)

/-! ### The admission limiter (`asyncio.Semaphore(20)` in `enrich_professors`)

`async with semaphore` in `enrich_with_limit` means an enrichment task
body runs only between an `acquire` and the matching `release`. The
semaphore is modelled as a transition system on the number of in-flight
bodies: `acquire` only fires below the capacity, `release` only with a
body in flight. -/

/-- The capacity of the enrichment admission limiter
(`asyncio.Semaphore(20)`). -/
def ENRICH_SEM_CAPACITY : Nat := 20

/-- Number of enrichment bodies currently inside the semaphore. -/
structure SemState where
  inFlight : Nat
  deriving Repr, DecidableEq

/-- One scheduler step of the semaphore protocol. -/
inductive SemStep (cap : Nat) : SemState → SemState → Prop
  | acquire (s : SemState) : s.inFlight < cap → SemStep cap s ⟨s.inFlight + 1⟩
  | release (s : SemState) : 0 < s.inFlight → SemStep cap s ⟨s.inFlight - 1⟩

/-- States reachable from the initial (idle) semaphore. -/
inductive SemReach (cap : Nat) : SemState → Prop
  | init : SemReach cap ⟨0⟩
  | step {s t : SemState} : SemReach cap s → SemStep cap s t → SemReach cap t

/-! ### Statement predicates -/

/-- A scholar candidate of the declared section-6 response shape: a dict
whose `affiliations` entry, when present, is a list of strings. -/
def wellFormedScholar (c : PyVal) : Bool :=
  match c with
  | .dict kvs =>
      match dictLookup kvs "affiliations" with
      | Option.none => true
      | some (.list xs) => xs.all (fun a => match a with | .str _ => true | _ => false)
      | some _ => false
  | _ => false

/-- Whether one candidate passes the domain filter (the boolean shadow of
`candidateMatches`, total on well-formed candidates). -/
def scholarMatchesB (kw : List String) (c : PyVal) : Bool :=
  match candidateMatches kw c with
  | .ok b => b
  | .error _ => false

/-- The frame of a match that Post-Match Enrichment must not touch: every
field except the professor `google_scholar_url` and `citation_metrics`. -/
def sameFrame (m m' : MatchResult) : Prop :=
  m'.match_score = m.match_score ∧
  m'.alignment_reasons = m.alignment_reasons ∧
  m'.relevant_publications = m.relevant_publications ∧
  m'.shared_keywords = m.shared_keywords ∧
  m'.recommendation_text = m.recommendation_text ∧
  m'.professor.id = m.professor.id ∧
  m'.professor.name = m.professor.name ∧
  m'.professor.title = m.professor.title ∧
  m'.professor.department = m.professor.department ∧
  m'.professor.university = m.professor.university ∧
  m'.professor.email = m.professor.email ∧
  m'.professor.scholar_id = m.professor.scholar_id ∧
  m'.professor.research_areas = m.professor.research_areas ∧
  m'.professor.publications = m.professor.publications ∧
  m'.professor.last_updated = m.professor.last_updated

/-- The acceptance test of the metric scrape for a given URL: a non-empty
dict without a truthy `error` entry. -/
def metricsAccepted (env : Env) (url : String) : Bool :=
  match env.scrapeGSMetrics url with
  | .dict kvs => pyTruthy (.dict kvs) && !pyTruthy (kvGet kvs "error")
  | _ => false

/-- A stored `match_start_time` the final commit can process: falsy (the
subtraction is skipped) or numeric (the subtraction succeeds). -/
def startTimeOk (kvs : List (String × PyVal)) : Bool :=
  let st := kvGet kvs "match_start_time"
  !pyTruthy st ||
    (match st with
     | .int _ => true
     | .float _ => true
     | .bool _ => true
     | _ => false)

/-! ### Concrete fixtures (witness and counterexample inputs) -/

/-- A base environment whose collaborators all answer with empty data. -/
def env0 : Env :=
  { searchWeb := fun _ => []
    searchFaculty := fun _ _ => .list []
    getProfessorPage := fun _ => .dict []
    searchScholar := fun _ => []
    getPublications := fun _ => []
    findGSUrl := fun _ _ => Option.none
    scrapeGSMetrics := fun _ => .dict []
    parseCV := fun _ => .dict []
    generateText := fun _ => "no json here"
    jsonLoads := fun _ => Option.none
    validEmail := fun _ => true
    getFilePath := fun _ _ => .ok Option.none
    getCached := fun _ _ => .ok Option.none
    freshUuid := fun _ => "uuid-0"
    utcnow := 0
    timeTime := 0 }

/-- Environment in which the scholar search answers candidate `X` with a
malformed (non-dict) scholar entry. -/
def envC3 : Env :=
  { env0 with searchScholar := fun n =>
      match n with
      | .str "X" => [.int 3]
      | _ => [] }

/-- Faculty entry whose enrichment raises (`cand.get` on a non-dict
scholar candidate). -/
def facX : PyVal := .dict [("name", .str "X")]

/-- Faculty entry whose enrichment succeeds along the no-scholar branch. -/
def facY : PyVal := .dict [("name", .str "Y")]

/-- Scholar candidate affiliated with the derived keyword `mit`. -/
def candMIT : PyVal :=
  .dict [("author_id", .str "a1"), ("affiliations", .list [.str "MIT CSAIL"])]

/-- Scholar candidate with a non-matching affiliation. -/
def candOther : PyVal :=
  .dict [("author_id", .str "a2"), ("affiliations", .list [.str "Oxford"])]

/-- Stale cache row sitting exactly at the TTL boundary when read at
`now = CACHE_TTL_SECONDS`. -/
def rowBoundary : CacheRow :=
  { id := "r1", name := "a", university := "u", updated_at := 0 }

/-- Fresh cache row (one second inside the TTL window at
`now = CACHE_TTL_SECONDS`). -/
def rowFresh : CacheRow :=
  { id := "r2", name := "a", university := "u", updated_at := 1 }

/-- Ranking professors for the concrete tie-order example. -/
def profA : ProfessorProfile :=
  { id := "A", name := "Alice", university := "u", last_updated := 0 }

def profB : ProfessorProfile :=
  { id := "B", name := "Bob", university := "u", last_updated := 0 }

/-- Decoded oracle ranking entry for professor `A` with score 50. -/
def entryA : PyVal :=
  .dict [("professor_id", .str "A"), ("match_score", .int 50),
         ("alignment_reasons", .list [.str "r1", .str "r2"]),
         ("recommendation_text", .str "take A")]

/-- Decoded oracle ranking entry for professor `B` with score 90. -/
def entryB : PyVal :=
  .dict [("professor_id", .str "B"), ("match_score", .int 90),
         ("alignment_reasons", .list [.str "r3", .str "r4"]),
         ("recommendation_text", .str "take B")]

/-- Environment whose ranking oracle answers `[A:50, B:90]`. -/
def envC7 : Env :=
  { env0 with
      generateText := fun _ => "[ranked]"
      jsonLoads := fun _ => some (.list [entryA, entryB]) }

/-- Environment with a Google Scholar URL hit and a successful metric
scrape. -/
def envC8 : Env :=
  { env0 with
      findGSUrl := fun _ _ => some "http://gs/x"
      scrapeGSMetrics := fun _ => .dict [("h_index", .int 5), ("total_citations", .int 100)] }

/-- A final match entering Post-Match Enrichment without a known URL. -/
def matchC8 : MatchResult :=
  { professor := { id := "P", name := "Pat", university := "u", last_updated := 0 }
    match_score := 77
    alignment_reasons := ["fit"]
    recommendation_text := "strong" }

/-- Session store holding one session with a falsy `match_start_time`. -/
def storeC2 : Store := [("s", .dict [("match_start_time", .int 0)])]

/-! ## Theorems -/

/-- Claim C9: during Profile Enrichment the number of candidate
enrichments in flight never exceeds the fixed admission-limiter capacity,
which lies in the 10 to 20 range (`asyncio.Semaphore(20)` in
`enrich_professors`): every state reachable under the semaphore protocol
keeps `inFlight` at or below the capacity, so unbounded fan-out cannot
occur regardless of the candidate list length. -/
theorem C9_enrichment_concurrency_bounded :
    (∀ s : SemState, SemReach ENRICH_SEM_CAPACITY s → s.inFlight ≤ ENRICH_SEM_CAPACITY)
    ∧ 10 ≤ ENRICH_SEM_CAPACITY ∧ ENRICH_SEM_CAPACITY ≤ 20 := by
  refine ⟨?_, by decide, by decide⟩
  intro s h
  induction h with
  | init => decide
  | step h1 h2 ih =>
      cases h2 with
      | acquire hlt => simpa using hlt
      | release hpos => simp; omega

/-- Witness for C9 at the initial state. -/
theorem C9_enrichment_concurrency_bounded_witness :
    (⟨0⟩ : SemState).inFlight ≤ ENRICH_SEM_CAPACITY ∧ 10 ≤ ENRICH_SEM_CAPACITY :=
  ⟨C9_enrichment_concurrency_bounded.1 ⟨0⟩ SemReach.init,
   C9_enrichment_concurrency_bounded.2.1⟩

/-- Counterexample to claim C1 as stated: on a transport failure
`search_faculty` hands its caller the empty dict that `call_tool`
produced, not an empty array, although its declared response shape in
section 6 is `object[]`. -/
theorem C1_counterexample_search_faculty_shape :
    search_faculty_wrap (call_tool true .raise (fun _ => Option.none)) = PyVal.dict []
    ∧ search_faculty_wrap (call_tool true .raise (fun _ => Option.none)) ≠ PyVal.list [] :=
  ⟨rfl, fun h => PyVal.noConfusion h⟩

/-- Claim C1 (amended): for every transport failure of the underlying
call, each of the nine gateway operations returns an empty sentinel value
and never propagates the exception — the array-coercing wrappers return
`[]`, the object-shaped ones `{}`, the optional-string one no value — and
`search_faculty` returns the empty object even though its declared shape
is an array. -/
theorem C1_gateway_transport_failure_sentinels :
    ∀ jl : String → Option PyVal,
      search_web_wrap (call_tool true .raise jl) = PyVal.list []
      ∧ search_faculty_wrap (call_tool true .raise jl) = PyVal.dict []
      ∧ get_professor_page_wrap (call_tool true .raise jl) = PyVal.dict []
      ∧ search_scholar_wrap (call_tool true .raise jl) = PyVal.list []
      ∧ get_publications_wrap (call_tool true .raise jl) = PyVal.list []
      ∧ get_citation_metrics_wrap (call_tool true .raise jl) = PyVal.dict []
      ∧ find_google_scholar_url_wrap (call_tool true .raise jl) = Option.none
      ∧ scrape_google_scholar_metrics_wrap (call_tool true .raise jl) = PyVal.dict []
      ∧ parse_cv_wrap (call_tool true .raise jl) = PyVal.dict [] :=
  fun _ => ⟨rfl, rfl, rfl, rfl, rfl, rfl, rfl, rfl, rfl⟩

/-- Claim C5: the cache freshness test is strict — a lookup returns a
record only when its `updated_at` is strictly newer than `now` minus the
7-day TTL, so a record whose age is exactly the TTL (or older) is treated
as absent. -/
theorem C5_cache_ttl_boundary_exclusive :
    (∀ (db : List CacheRow) (now : Int) (name univ : String),
        (∀ c ∈ db, c.name = name → c.university = univ →
          c.updated_at ≤ now - CACHE_TTL_SECONDS) →
        get_cached_professor db now name univ = .ok Option.none)
    ∧ (∀ (db : List CacheRow) (now : Int) (name univ : String) (p : ProfessorProfile),
        get_cached_professor db now name univ = .ok (some p) →
        ∃ c ∈ db, c.name = name ∧ c.university = univ ∧
          now - CACHE_TTL_SECONDS < c.updated_at ∧ p = _cache_to_profile c) := by
  constructor
  · intro db now name univ h
    have hf : db.filter (cacheHit name univ now) = [] := by
      rw [List.filter_eq_nil_iff]
      intro c hc
      simp only [cacheHit, Bool.and_eq_true, beq_iff_eq, decide_eq_true_eq, not_and, not_lt]
      exact fun h1 => h c hc h1.1 h1.2
    simp only [get_cached_professor]
    rw [hf]
  · intro db now name univ p h
    unfold get_cached_professor at h
    rcases hfil : db.filter (cacheHit name univ now) with _ | ⟨c, rest⟩
    · rw [hfil] at h; simp at h
    · rcases rest with _ | ⟨c2, rest2⟩
      · rw [hfil] at h
        simp at h
        have hm : c ∈ db.filter (cacheHit name univ now) := by
          rw [hfil]; exact List.mem_singleton.mpr rfl
        have hmem := List.mem_filter.mp hm
        refine ⟨c, hmem.1, ?_⟩
        have hp := hmem.2
        simp only [cacheHit, Bool.and_eq_true, beq_iff_eq, decide_eq_true_eq] at hp
        exact ⟨hp.1.1, hp.1.2, hp.2, h.symm⟩
      · rw [hfil] at h; simp at h

/-- Witness for C5: at `now = CACHE_TTL_SECONDS` the boundary row (age
exactly the TTL) is absent, and a read that does return a profile exhibits
a strictly fresh row. -/
theorem C5_cache_ttl_boundary_exclusive_witness :
    get_cached_professor [rowBoundary] CACHE_TTL_SECONDS "a" "u" = .ok Option.none
    ∧ ∃ c ∈ [rowFresh], c.name = "a" ∧ c.university = "u" ∧
        CACHE_TTL_SECONDS - CACHE_TTL_SECONDS < c.updated_at ∧
        _cache_to_profile rowFresh = _cache_to_profile c :=
  ⟨C5_cache_ttl_boundary_exclusive.1 [rowBoundary] CACHE_TTL_SECONDS "a" "u"
      (by intro c hc h1 h2; simp [List.mem_singleton] at hc; subst hc; decide),
   C5_cache_ttl_boundary_exclusive.2 [rowFresh] CACHE_TTL_SECONDS "a" "u"
      (_cache_to_profile rowFresh) rfl⟩

/-- On an all-string affiliation list the loop cannot raise. -/
lemma affiliationsMatch_ok (kw : List String) (xs : List PyVal)
    (h : ∀ a ∈ xs, ∃ s, a = .str s) : ∃ b, affiliationsMatch kw xs = .ok b := by
  induction xs with
  | nil => exact ⟨false, rfl⟩
  | cons a rest ih =>
      obtain ⟨s, rfl⟩ := h a (List.mem_cons_self a rest)
      by_cases hk : kw.any (fun k => containsSub k.data (lowerStr s).data)
      · exact ⟨true, by simp [affiliationsMatch, hk]⟩
      · obtain ⟨b, hb⟩ := ih (fun a ha => h a (List.mem_cons_of_mem _ ha))
        exact ⟨b, by simp [affiliationsMatch, hk, hb]⟩

/-- A well-formed scholar candidate never makes the domain filter raise. -/
lemma candidateMatches_ok (kw : List String) (c : PyVal)
    (h : wellFormedScholar c = true) : ∃ b, candidateMatches kw c = .ok b := by
  rcases c with _ | _ | _ | _ | _ | _ | kvs <;> simp [wellFormedScholar] at h
  rcases hl : dictLookup kvs "affiliations" with _ | v
  · exact ⟨false, by simp [candidateMatches, pyGet, hl, pyTruthy, Bind.bind, Except.bind,
      pure, Except.pure]⟩
  · rw [hl] at h
    rcases v with _ | _ | _ | _ | _ | xs | _ <;> simp at h
    have hstr : ∀ a ∈ xs, ∃ s, a = PyVal.str s := by
      intro a ha
      have hm := h a ha
      rcases a with _ | _ | _ | _ | s | _ | _ <;> simp at hm
      exact ⟨s, rfl⟩
    rcases xs with _ | ⟨a, rest⟩
    · exact ⟨false, by simp [candidateMatches, pyGet, hl, pyTruthy, Bind.bind, Except.bind,
        pure, Except.pure]⟩
    · obtain ⟨b, hb⟩ := affiliationsMatch_ok kw (a :: rest) hstr
      exact ⟨b, by simp [candidateMatches, pyGet, hl, pyTruthy, hb, Bind.bind, Except.bind,
        pure, Except.pure]⟩

/-- On well-formed candidates the filter equals its boolean shadow. -/
lemma candidateMatches_eq_shadow (kw : List String) (c : PyVal)
    (h : wellFormedScholar c = true) :
    candidateMatches kw c = .ok (scholarMatchesB kw c) := by
  obtain ⟨b, hb⟩ := candidateMatches_ok kw c h
  rw [hb]; simp [scholarMatchesB, hb]

/-- The candidate loop returns the first boolean-shadow match. -/
lemma findFirstMatch_eq_find (kw : List String) (l : List PyVal)
    (h : ∀ c ∈ l, wellFormedScholar c = true) :
    findFirstMatch kw l = .ok (l.find? (scholarMatchesB kw)) := by
  induction l with
  | nil => rfl
  | cons c rest ih =>
      have hc := candidateMatches_eq_shadow kw c (h c (List.mem_cons_self c rest))
      have ihr := ih (fun a ha => h a (List.mem_cons_of_mem _ ha))
      rcases hb : scholarMatchesB kw c with _ | _
      all_goals
        simp [findFirstMatch, hc, hb, List.find?, ihr, Bind.bind, Except.bind, pure, Except.pure]

/-- Claim C4: for every non-empty, shape-conformant scholar-search
result, disambiguation selects some candidate — the first whose
affiliation list contains a derived domain keyword as a lowercase
substring when one exists, and the first search result otherwise; it
never leaves the scholar unset when at least one candidate exists. -/
theorem C4_disambiguation_never_empty (candidates : List PyVal)
    (kw : List String) (c0 : PyVal) (cs : List PyVal)
    (hwf : ∀ c ∈ candidates, wellFormedScholar c = true)
    (hcands : candidates = c0 :: cs) :
    disambiguate candidates kw =
      .ok (some ((candidates.find? (scholarMatchesB kw)).getD c0)) := by
  subst hcands
  have hff := findFirstMatch_eq_find kw (c0 :: cs) hwf
  rcases hf : (c0 :: cs).find? (scholarMatchesB kw) with _ | c
  all_goals
    simp [disambiguate, hff, hf, Bind.bind, Except.bind, pure, Except.pure]

/-- Witness for C4: two candidates, the second affiliated with the
derived keyword `mit`; the filter selects it and disambiguation returns
it. -/
theorem C4_disambiguation_never_empty_witness :
    (∀ c ∈ [candOther, candMIT], wellFormedScholar c = true)
    ∧ ([candOther, candMIT].find? (scholarMatchesB ["mit"])) = some candMIT
    ∧ disambiguate [candOther, candMIT] ["mit"] =
        .ok (some (([candOther, candMIT].find? (scholarMatchesB ["mit"])).getD candOther)) := by
  have hwf : ∀ c ∈ [candOther, candMIT], wellFormedScholar c = true := by
    intro c hc
    rcases List.mem_cons.mp hc with rfl | hc2
    · rfl
    · rcases List.mem_cons.mp hc2 with rfl | h3
      · rfl
      · cases h3
  exact ⟨hwf, rfl,
    C4_disambiguation_never_empty [candOther, candMIT] ["mit"] candOther [candMIT] hwf rfl⟩

/-- Claim C3: a candidate whose enrichment raises contributes nothing to
the Profile Enrichment output while every other candidate is processed
exactly as it would be alone, and every output element is a successfully
built profile of some input candidate (the gather boundary swallows the
exception; the stage itself cannot raise, being a total function). -/
theorem C3_enrichment_failure_isolated (env : Env) (university : String)
    (l1 l2 : List PyVal) (x : PyVal) (e : PyErr)
    (hx : enrich_single_professor env x university (domain_keywords_of university)
      = .error e) :
    (enrich_professors env (l1 ++ x :: l2) university).1
      = (enrich_professors env l1 university).1 ++ (enrich_professors env l2 university).1
    ∧ ∀ p ∈ (enrich_professors env (l1 ++ x :: l2) university).1,
        ∃ f, (f ∈ l1 ∨ f ∈ l2) ∧ ∃ ws,
          enrich_single_professor env f university (domain_keywords_of university)
            = .ok (some p, ws) := by
  constructor
  · simp [enrich_professors, List.filterMap_append, hx]
  · intro p hp
    simp only [enrich_professors, List.filterMap_map] at hp
    obtain ⟨f, hf, hgf⟩ := List.mem_filterMap.mp hp
    rcases hr : enrich_single_professor env f university (domain_keywords_of university)
      with r | ⟨opt, ws⟩
    · rw [Function.comp_apply, hr] at hgf; simp at hgf
    · rw [Function.comp_apply, hr] at hgf
      rcases opt with _ | q
      · simp at hgf
      · simp at hgf
        subst hgf
        have hfx : f ≠ x := by
          intro hfx; rw [hfx, hx] at hr; exact Except.noConfusion hr
        rcases List.mem_append.mp hf with h1 | h2
        · exact ⟨f, Or.inl h1, ws, hr⟩
        · rcases List.mem_cons.mp h2 with rfl | h3
          · exact absurd rfl hfx
          · exact ⟨f, Or.inr h3, ws, hr⟩

/-- Witness for C3: candidate `X` raises (`AttributeError` on a malformed
scholar entry) and is dropped, candidate `Y` is enriched untouched. -/
theorem C3_enrichment_failure_isolated_witness :
    enrich_single_professor envC3 facX "mit.edu" (domain_keywords_of "mit.edu")
        = .error .attributeError
    ∧ (enrich_professors envC3 [facY, facX] "mit.edu").1
        = (enrich_professors envC3 [facY] "mit.edu").1
          ++ (enrich_professors envC3 [] "mit.edu").1
    ∧ (enrich_professors envC3 [facY, facX] "mit.edu").1.length = 1 :=
  ⟨rfl,
   (C3_enrichment_failure_isolated envC3 "mit.edu" [facY] [] facX .attributeError rfl).1,
   rfl⟩

/-- A URL of one branch ends up in the seen set or among the pairs the
branch itself contributed. -/
lemma addBranchUrls_mem (i u : String) (us : List String) :
    ∀ seen : List String, u ∈ us →
      u ∈ seen ∨ u ∈ (addBranchUrls seen i us).2.map Prod.fst := by
  induction us with
  | nil => intro seen hu; cases hu
  | cons u0 us' ih =>
      intro seen hu
      by_cases hc : u0 ∈ seen
      · rcases List.mem_cons.mp hu with rfl | hu'
        · exact Or.inl hc
        · rcases ih seen hu' with h | h
          · exact Or.inl h
          · right; simpa [addBranchUrls, hc] using h
      · rcases List.mem_cons.mp hu with rfl | hu'
        · right; simp [addBranchUrls, hc]
        · rcases ih (u0 :: seen) hu' with h | h
          · rcases List.mem_cons.mp h with rfl | hseen
            · right; simp [addBranchUrls, hc]
            · exact Or.inl hseen
          · right
            simpa [addBranchUrls, hc] using Or.inr h

/-- Everything the seen set picks up while one branch is folded in was
already seen or is among the pairs contributed by that branch. -/
lemma addBranchUrls_seen_mem (i u : String) (us : List String) :
    ∀ seen : List String, u ∈ (addBranchUrls seen i us).1 →
      u ∈ seen ∨ u ∈ (addBranchUrls seen i us).2.map Prod.fst := by
  induction us with
  | nil => intro seen hu; exact Or.inl (by simpa [addBranchUrls] using hu)
  | cons u0 us' ih =>
      intro seen hu
      by_cases hc : u0 ∈ seen
      · rcases ih seen (by simpa [addBranchUrls, hc] using hu) with h | h
        · exact Or.inl h
        · right; simpa [addBranchUrls, hc] using h
      · have hu' : u ∈ (addBranchUrls (u0 :: seen) i us').1 := by
          simpa [addBranchUrls, hc] using hu
        rcases ih (u0 :: seen) hu' with h | h
        · rcases List.mem_cons.mp h with rfl | hseen
          · right; simp [addBranchUrls, hc]
          · exact Or.inl hseen
        · right
          simpa [addBranchUrls, hc] using Or.inr h

/-- No URL of a non-raised branch is lost by the deduplicating pair
construction: it is initially seen or appears among the fan-out URLs. -/
lemma build_search_pairs_covers (u : String)
    (branches : List (String × Except PyErr (List String))) :
    ∀ seen : List String, ∀ i urls, (i, Except.ok urls) ∈ branches → u ∈ urls →
      u ∈ seen ∨ u ∈ (build_search_pairs seen branches).map Prod.fst := by
  induction branches with
  | nil => intro seen i urls hb; cases hb
  | cons b rest ih =>
      intro seen i urls hb hu
      rcases b with ⟨j, r⟩
      rcases List.mem_cons.mp hb with heq | htail
      · injection heq with h1 h2
        subst h1; subst h2
        rcases addBranchUrls_mem i u urls seen hu with h | h
        · exact Or.inl h
        · right
          simp only [build_search_pairs, List.map_append]
          exact List.mem_append.mpr (Or.inl h)
      · rcases r with e | us0
        · rcases ih seen i urls htail hu with h | h
          · exact Or.inl h
          · right; simpa [build_search_pairs] using h
        · rcases ih (addBranchUrls seen j us0).1 i urls htail hu with h | h
          · rcases addBranchUrls_seen_mem j u us0 seen h with h2 | h2
            · exact Or.inl h2
            · right
              simp only [build_search_pairs, List.map_append]
              exact List.mem_append.mpr (Or.inl h2)
          · right
            simp only [build_search_pairs, List.map_append]
            exact List.mem_append.mpr (Or.inr h)

/-- Counterexample to claim C6 as stated: with the web search returning no
URLs, the `machine learning` branch does not contribute zero URLs to the
fan-out — it contributes the normalized university URL as a fallback
pair. -/
theorem C6_counterexample_fallback_url :
    discover_faculty_url env0 "mit.edu" "machine learning" = ["https://mit.edu"]
    ∧ build_search_pairs []
        [("machine learning",
          .ok (discover_faculty_url env0 "mit.edu" "machine learning"))]
        = [("https://mit.edu", "machine learning")]
    ∧ discover_faculty_url env0 "mit.edu" "machine learning" ≠ [] :=
  ⟨rfl, rfl, by
    rw [show discover_faculty_url env0 "mit.edu" "machine learning"
      = ["https://mit.edu"] from rfl]
    simp⟩

/-- Claim C6 (amended): a branch whose web search fails (swallowed into no
URLs by the gateway) or yields no URLs contributes exactly one fallback
candidate URL — the https-normalized university URL — rather than zero;
and a branch never removes URLs of other branches: every URL of every
non-raised branch still appears among the deduplicated `(url, interest)`
fan-out pairs. -/
theorem C6_discovery_branch_fallback (env : Env) (university interest : String)
    (hq : env.searchWeb (discovery_query university interest) = []) :
    discover_faculty_url env university interest = [normalizeUniversity university]
    ∧ ∀ (branches : List (String × Except PyErr (List String)))
        (i : String) (urls : List String) (u : String),
        (i, Except.ok urls) ∈ branches → u ∈ urls →
        u ∈ (build_search_pairs [] branches).map Prod.fst := by
  constructor
  · unfold discover_faculty_url
    by_cases hk : (["faculty", "staff", "people", "directory", "team", "professors"]).any
        (fun k => containsSub k.data (lowerStr (urlPath (normalizeUniversity university))).data)
    · simp [hk]
    · simp [hk, hq]
  · intro branches i urls u hb hu
    rcases build_search_pairs_covers u branches [] i urls hb hu with h | h
    · cases h
    · exact h

/-- Witness for C6 (amended) at the concrete fallback scenario. -/
theorem C6_discovery_branch_fallback_witness :
    discover_faculty_url env0 "mit.edu" "machine learning"
        = [normalizeUniversity "mit.edu"]
    ∧ "https://a/x" ∈ (build_search_pairs []
        [("i", .ok ["https://a/x"])]).map Prod.fst :=
  ⟨(C6_discovery_branch_fallback env0 "mit.edu" "machine learning" rfl).1,
   (C6_discovery_branch_fallback env0 "mit.edu" "machine learning" rfl).2
     [("i", .ok ["https://a/x"])] "i" ["https://a/x"] "https://a/x"
     (List.mem_singleton.mpr rfl) (List.mem_singleton.mpr rfl)⟩

/-- `applyMetrics` touches only `citation_metrics`. -/
lemma applyMetrics_frame (env : Env) (p : ProfessorProfile) (u : String) :
    (applyMetrics env p u).id = p.id ∧
    (applyMetrics env p u).name = p.name ∧
    (applyMetrics env p u).title = p.title ∧
    (applyMetrics env p u).department = p.department ∧
    (applyMetrics env p u).university = p.university ∧
    (applyMetrics env p u).email = p.email ∧
    (applyMetrics env p u).scholar_id = p.scholar_id ∧
    (applyMetrics env p u).google_scholar_url = p.google_scholar_url ∧
    (applyMetrics env p u).research_areas = p.research_areas ∧
    (applyMetrics env p u).publications = p.publications ∧
    (applyMetrics env p u).last_updated = p.last_updated := by
  unfold applyMetrics
  split <;> try simp
  split <;> try simp
  split <;> simp

/-- `scrapeStep` touches only `citation_metrics`. -/
lemma scrapeStep_frame (env : Env) (p : ProfessorProfile) :
    (scrapeStep env p).id = p.id ∧
    (scrapeStep env p).name = p.name ∧
    (scrapeStep env p).title = p.title ∧
    (scrapeStep env p).department = p.department ∧
    (scrapeStep env p).university = p.university ∧
    (scrapeStep env p).email = p.email ∧
    (scrapeStep env p).scholar_id = p.scholar_id ∧
    (scrapeStep env p).google_scholar_url = p.google_scholar_url ∧
    (scrapeStep env p).research_areas = p.research_areas ∧
    (scrapeStep env p).publications = p.publications ∧
    (scrapeStep env p).last_updated = p.last_updated := by
  unfold scrapeStep
  split
  · split
    · exact applyMetrics_frame env p _
    · simp
  · simp

/-- A rejected scrape leaves the profile untouched. -/
lemma applyMetrics_of_not_accepted (env : Env) (p : ProfessorProfile) (u : String)
    (h : metricsAccepted env u = false) : applyMetrics env p u = p := by
  unfold metricsAccepted at h
  unfold applyMetrics
  rcases hs : env.scrapeGSMetrics u with _ | b | n | q | s | xs | kvs <;> rw [hs] at h
  case dict =>
    simp only [] at h
    simp [h]
  all_goals simp

/-- A `citation_metrics` overwrite by `applyMetrics` forces an accepted
scrape at that URL. -/
lemma applyMetrics_overwrite (env : Env) (p : ProfessorProfile) (u : String)
    (h : (applyMetrics env p u).citation_metrics ≠ p.citation_metrics) :
    metricsAccepted env u = true := by
  by_cases hacc : metricsAccepted env u = true
  · exact hacc
  · rw [applyMetrics_of_not_accepted env p u (Bool.eq_false_iff.mpr hacc)] at h
    exact absurd rfl h

/-- A metric overwrite by `scrapeStep` exhibits an accepted scrape at the
profile URL. -/
lemma scrapeStep_overwrite (env : Env) (p1 : ProfessorProfile)
    (hch : (scrapeStep env p1).citation_metrics ≠ p1.citation_metrics) :
    ∃ url, (scrapeStep env p1).google_scholar_url = some url
      ∧ metricsAccepted env url = true := by
  unfold scrapeStep at hch ⊢
  rcases hu : p1.google_scholar_url with _ | u
  · rw [hu] at hch; exact absurd rfl hch
  · rw [hu] at hch
    have hch2 : (if u ≠ "" then applyMetrics env p1 u else p1).citation_metrics
        ≠ p1.citation_metrics := hch
    by_cases he : u = ""
    · rw [if_neg (by simpa using he)] at hch2
      exact absurd rfl hch2
    · rw [if_pos he] at hch2
      refine ⟨u, ?_, ?_⟩
      · show (if u ≠ "" then applyMetrics env p1 u else p1).google_scholar_url = some u
        rw [if_pos he, (applyMetrics_frame env p1 u).2.2.2.2.2.2.2.1, hu]
      · exact applyMetrics_overwrite env p1 u hch2

/-- Claim C8: Post-Match Enrichment preserves list membership and order
and every field other than the professor `google_scholar_url` and
`citation_metrics`; `citation_metrics` is overwritten only when the
scrape of the (possibly just backfilled) URL returned a truthy result
without an error marker. -/
theorem C8_postmatch_enrichment_frame (env : Env) (university : String)
    (ms : List MatchResult) :
    enrich_matches_with_google_scholar env ms university
        = ms.map (enrich_one_match env (_extract_domain university))
    ∧ (∀ m : MatchResult, sameFrame m (enrich_one_match env (_extract_domain university) m))
    ∧ ∀ m : MatchResult,
        (enrich_one_match env (_extract_domain university) m).professor.citation_metrics
            ≠ m.professor.citation_metrics →
        ∃ url, (enrich_one_match env (_extract_domain university) m).professor.google_scholar_url
              = some url
          ∧ metricsAccepted env url = true := by
  refine ⟨rfl, ?_, ?_⟩
  · intro m
    obtain ⟨h1, h2, h3, h4, h5, h6, h7, h8, h9, h10, h11⟩ := scrapeStep_frame env
      { m.professor with
          google_scholar_url := backfillUrl env (_extract_domain university) m.professor }
    exact ⟨rfl, rfl, rfl, rfl, rfl, h1, h2, h3, h4, h5, h6, h7, h9, h10, h11⟩
  · intro m hne
    obtain ⟨url, hu1, hu2⟩ := scrapeStep_overwrite env
      { m.professor with
          google_scholar_url := backfillUrl env (_extract_domain university) m.professor }
      hne
    exact ⟨url, hu1, hu2⟩

/-- Witness for C8: a match without a URL gets one backfilled and its
metrics overwritten from an accepted scrape. -/
theorem C8_postmatch_enrichment_frame_witness :
    sameFrame matchC8 (enrich_one_match envC8 (_extract_domain "mit.edu") matchC8)
    ∧ ∃ url, (enrich_one_match envC8 (_extract_domain "mit.edu") matchC8).professor.google_scholar_url
          = some url
        ∧ metricsAccepted envC8 url = true :=
  ⟨(C8_postmatch_enrichment_frame envC8 "mit.edu" [matchC8]).2.1 matchC8,
   (C8_postmatch_enrichment_frame envC8 "mit.edu" [matchC8]).2.2 matchC8
     (by rw [show (enrich_one_match envC8 (_extract_domain "mit.edu") matchC8).professor.citation_metrics
           = some { h_index := 5, i10_index := 0, total_citations := 100 } from rfl]
         simp [matchC8])⟩

/-- Membership through descending insertion. -/
lemma mem_insertMatchDesc {z x : MatchResult} {l : List MatchResult}
    (h : z ∈ insertMatchDesc x l) : z = x ∨ z ∈ l := by
  induction l with
  | nil => simpa [insertMatchDesc] using h
  | cons y ys ih =>
      by_cases hyx : y.match_score ≤ x.match_score
      · simpa [insertMatchDesc, hyx] using h
      · rw [insertMatchDesc, if_neg hyx] at h
        rcases List.mem_cons.mp h with rfl | h2
        · exact Or.inr (List.mem_cons_self _ _)
        · rcases ih h2 with h3 | h3
          · exact Or.inl h3
          · exact Or.inr (List.mem_cons_of_mem _ h3)

/-- Descending insertion preserves descending pairwise order. -/
lemma insertMatchDesc_pairwise (x : MatchResult) (l : List MatchResult)
    (h : List.Pairwise (fun a b => b.match_score ≤ a.match_score) l) :
    List.Pairwise (fun a b => b.match_score ≤ a.match_score) (insertMatchDesc x l) := by
  induction l with
  | nil => simp [insertMatchDesc]
  | cons y ys ih =>
      rcases List.pairwise_cons.mp h with ⟨hy, hys⟩
      by_cases hyx : y.match_score ≤ x.match_score
      · rw [insertMatchDesc, if_pos hyx]
        refine List.pairwise_cons.mpr ⟨?_, h⟩
        intro z hz
        rcases List.mem_cons.mp hz with rfl | hz2
        · exact hyx
        · exact le_trans (hy z hz2) hyx
      · rw [insertMatchDesc, if_neg hyx]
        refine List.pairwise_cons.mpr ⟨?_, ih hys⟩
        intro z hz
        rcases mem_insertMatchDesc hz with rfl | hz2
        · exact le_of_lt (lt_of_not_le hyx)
        · exact hy z hz2

/-- The stable descending sort is sorted (descending pairwise). -/
lemma sortMatchesDesc_pairwise (l : List MatchResult) :
    List.Pairwise (fun a b => b.match_score ≤ a.match_score) (sortMatchesDesc l) := by
  induction l with
  | nil => simp [sortMatchesDesc]
  | cons x xs ih => exact insertMatchDesc_pairwise x (sortMatchesDesc xs) ih

/-- Filtering one score class through descending insertion: the elements
skipped before the insertion point all have strictly larger scores. -/
lemma insertMatchDesc_filter (x : MatchResult) (l : List MatchResult) (q : Rat) :
    (insertMatchDesc x l).filter (fun m => m.match_score == q)
      = if x.match_score == q
        then x :: l.filter (fun m => m.match_score == q)
        else l.filter (fun m => m.match_score == q) := by
  induction l with
  | nil => simp [insertMatchDesc, List.filter_cons]
  | cons y ys ih =>
      by_cases hyx : y.match_score ≤ x.match_score
      · rw [insertMatchDesc, if_pos hyx]
        by_cases hq : x.match_score = q
        · simp [List.filter_cons, hq]
        · simp [List.filter_cons, hq]
      · rw [insertMatchDesc, if_neg hyx]
        by_cases hq : x.match_score = q
        · have hyq : ¬ y.match_score = q := by
            intro hy
            exact hyx (by rw [hy, hq])
          simp [List.filter_cons, hyq, ih, hq]
        · by_cases hyq : y.match_score = q
          · simp [List.filter_cons, hyq, ih, hq]
          · simp [List.filter_cons, hyq, ih, hq]

/-- The stable descending sort preserves each score class in order. -/
lemma sortMatchesDesc_filter (l : List MatchResult) (q : Rat) :
    (sortMatchesDesc l).filter (fun m => m.match_score == q)
      = l.filter (fun m => m.match_score == q) := by
  induction l with
  | nil => rfl
  | cons x xs ih =>
      rw [sortMatchesDesc, insertMatchDesc_filter]
      by_cases hq : x.match_score = q
      · simp [List.filter_cons, hq, ih]
      · simp [List.filter_cons, hq, ih]

/-- Claim C7: every successful Match Ranking output is sorted in
descending `match_score` order, and it is the stable descending sort of
the pre-sort entry list: each score class appears in exactly the relative
order the oracle returned it. -/
theorem C7_ranking_sorted_and_stable (env : Env)
    (professors : List ProfessorProfile) (research_interests : List String)
    (student_profile : Option StudentProfile) (out : List MatchResult)
    (h : generate_matches env professors research_interests student_profile = .ok out) :
    List.Pairwise (fun a b => b.match_score ≤ a.match_score) out
    ∧ ∀ pre, generate_matches_raw env professors research_interests student_profile
          = .ok pre →
        out = sortMatchesDesc pre
        ∧ ∀ q : Rat, out.filter (fun m => m.match_score == q)
            = pre.filter (fun m => m.match_score == q) := by
  unfold generate_matches at h
  rcases hr : generate_matches_raw env professors research_interests student_profile
    with e | pre0
  · rw [hr] at h; exact absurd h (by simp)
  · rw [hr] at h
    have hout : out = sortMatchesDesc pre0 := by
      injection h with h2; exact h2.symm
    subst hout
    refine ⟨sortMatchesDesc_pairwise pre0, ?_⟩
    intro pre hpre
    injection hpre with h3
    subst h3
    exact ⟨rfl, fun q => sortMatchesDesc_filter pre0 q⟩

/-- Witness for C7: the oracle answers `[A:50, B:90]`; the output order is
`[B, A]` and the theorem yields its sortedness. -/
theorem C7_ranking_sorted_and_stable_witness :
    ∃ out, generate_matches envC7 [profA, profB] ["ml"] Option.none = .ok out
      ∧ out.map (fun m => m.professor.id) = ["B", "A"]
      ∧ List.Pairwise (fun a b => b.match_score ≤ a.match_score) out :=
  ⟨_, rfl, rfl,
   (C7_ranking_sorted_and_stable envC7 [profA, profB] ["ml"] Option.none _ rfl).1⟩

/-- Reading back a freshly written session. -/
lemma get_session_set_session (store : Store) (sid : String) (v : PyVal) :
    get_session (set_session store sid v) sid = some v := by
  induction store with
  | nil => simp [set_session, get_session]
  | cons kv rest ih =>
      rcases kv with ⟨k, w⟩
      by_cases hk : k = sid
      · simp [set_session, get_session, hk]
      · simp [set_session, get_session, hk, ih]

/-- A missing session makes `update_progress` a silent no-op. -/
lemma update_progress_none (store : Store) (sid : String) (p : Int) (st : String)
    (h : get_session store sid = Option.none) :
    update_progress store sid p st = .ok store := by
  simp [update_progress, h]

/-- A missing session makes the final commit a silent no-op. -/
lemma commit_results_none (env : Env) (store : Store) (sid : String)
    (ms : List MatchResult) (h : get_session store sid = Option.none) :
    commit_results env store sid ms = .ok store := by
  simp [commit_results, h]

/-- Claim C10: when the session store holds no record for the session
id of the run, every progress update and the final commit are silent no-ops
— the store is returned unchanged and no error is raised — while the
pipeline still executes all stages and returns the computed match list
(the session-free `pipeline_core` value). -/
theorem C10_missing_session_silent_noop (env : Env) (sid uni : String)
    (ints : List String) (fids : Option (List String)) (store : Store)
    (h : get_session store sid = Option.none) :
    run_matching env sid uni ints fids store
      = (pipeline_core env sid uni ints fids).map (fun ms => (ms, store)) := by
  have hup : ∀ (p : Int) (st : String), update_progress store sid p st = .ok store :=
    fun p st => update_progress_none store sid p st h
  have hcm : ∀ ms : List MatchResult, commit_results env store sid ms = .ok store :=
    fun ms => commit_results_none env store sid ms h
  unfold run_matching pipeline_core
  simp only [hup, hcm, Bind.bind, Except.bind]
  rcases hsp : student_profile_step env sid ints fids with e | sp
  · rfl
  · simp only []
    rcases hfl : filter_faculty_by_relevance env (fetch_faculty env uni ints) ints
      with e | fac2
    · rfl
    · simp only []
      rcases hgm : generate_matches env (enrich_professors env fac2 uni).1 ints sp
        with e | ms
      · rfl
      · simp only [hcm, Except.map, pure, Except.pure]

/-- Witness for C10 on the empty store. -/
theorem C10_missing_session_silent_noop_witness :
    run_matching env0 "s" "mit.edu" ["ml"] Option.none []
      = (pipeline_core env0 "s" "mit.edu" ["ml"] Option.none).map (fun ms => (ms, [])) :=
  C10_missing_session_silent_noop env0 "s" "mit.edu" ["ml"] Option.none [] rfl

/-- Lookup after a dict write. -/
lemma dictLookup_dictSet (kvs : List (String × PyVal)) (k : String) (v : PyVal)
    (k' : String) :
    dictLookup (dictSet kvs k v) k' = if k' = k then some v else dictLookup kvs k' := by
  induction kvs with
  | nil =>
      by_cases h : k' = k
      · simp [dictSet, dictLookup, h]
      · simp [dictSet, dictLookup, h, Ne.symm h]
  | cons kv rest ih =>
      rcases kv with ⟨k0, w⟩
      by_cases h0 : k0 = k
      · subst h0
        by_cases h' : k0 = k'
        · subst h'
          simp [dictSet, dictLookup]
        · simp [dictSet, dictLookup, h', Ne.symm h']
      · by_cases h' : k0 = k'
        · subst h'
          simp [dictSet, dictLookup, h0, Ne.symm h0]
        · simp [dictSet, dictLookup, h0, h', Ne.symm h', ih]

/-- A dict write never empties the dict. -/
lemma dictSet_ne_nil (kvs : List (String × PyVal)) (k : String) (v : PyVal) :
    dictSet kvs k v ≠ [] := by
  cases kvs with
  | nil => simp [dictSet]
  | cons kv rest =>
      rcases kv with ⟨k0, w⟩
      by_cases h : k0 = k
      · simp [dictSet, h]
      · simp [dictSet, h]

/-- A truthy dict session gets its progress and step written back, with
the start-time entry untouched. -/
lemma session_step (store : Store) (sid : String) (kvs : List (String × PyVal))
    (p : Int) (st : String)
    (h : get_session store sid = some (.dict kvs)) (hne : kvs ≠ []) :
    ∃ kvs2, update_progress store sid p st = .ok (set_session store sid (.dict kvs2))
      ∧ get_session (set_session store sid (.dict kvs2)) sid = some (.dict kvs2)
      ∧ kvs2 ≠ []
      ∧ dictLookup kvs2 "match_start_time" = dictLookup kvs "match_start_time" := by
  have htr : pyTruthy (.dict kvs) = true := by
    simp [pyTruthy, List.isEmpty_iff]
    exact hne
  refine ⟨dictSet (dictSet kvs "match_progress" (.int p)) "current_step" (.str st),
    ?_, get_session_set_session _ _ _, dictSet_ne_nil _ _ _, ?_⟩
  · simp [update_progress, h, htr]
  · rw [dictLookup_dictSet, dictLookup_dictSet, if_neg (by decide), if_neg (by decide)]

/-- `startTimeOk` only reads the start-time entry. -/
lemma startTimeOk_congr (kvs kvs2 : List (String × PyVal))
    (h : dictLookup kvs2 "match_start_time" = dictLookup kvs "match_start_time") :
    startTimeOk kvs2 = startTimeOk kvs := by
  unfold startTimeOk kvGet
  rw [h]

/-- With a truthy dict session whose start time is processable, the final
commit writes completed status, full progress and the dumped results. -/
lemma commit_results_completed (env : Env) (store : Store) (sid : String)
    (kvs : List (String × PyVal)) (ms : List MatchResult)
    (h : get_session store sid = some (.dict kvs)) (hne : kvs ≠ [])
    (hst : startTimeOk kvs = true) :
    ∃ kvs2, commit_results env store sid ms = .ok (set_session store sid (.dict kvs2))
      ∧ dictLookup kvs2 "match_status" = some (.str "completed")
      ∧ dictLookup kvs2 "match_progress" = some (.int 100)
      ∧ dictLookup kvs2 "match_results" = some (.list (ms.map matchToPy)) := by
  have htr : pyTruthy (.dict kvs) = true := by
    simp [pyTruthy, List.isEmpty_iff]
    exact hne
  have hk1 : ∃ kvs1,
      ((if pyTruthy (kvGet kvs "match_start_time") then
          match timeDiff env.timeTime (kvGet kvs "match_start_time") with
          | some q => Except.ok (dictSet kvs "total_match_time" (.float q))
          | Option.none => Except.error PyErr.typeError
        else Except.ok kvs) : Except PyErr (List (String × PyVal))) = .ok kvs1 := by
    unfold startTimeOk at hst
    rcases hv : kvGet kvs "match_start_time" with _ | b | n | q | s | xs | kv2 <;>
      rw [hv] at hst
    · exact ⟨kvs, by simp [pyTruthy]⟩
    · rcases b with _ | _
      · exact ⟨kvs, by simp [pyTruthy]⟩
      · exact ⟨dictSet kvs "total_match_time" (.float (env.timeTime - 1)),
          by simp [pyTruthy, timeDiff]⟩
    · by_cases hn : n = 0
      · exact ⟨kvs, by simp [pyTruthy, hn]⟩
      · exact ⟨dictSet kvs "total_match_time" (.float (env.timeTime - (n : Rat))),
          by simp [pyTruthy, hn, timeDiff]⟩
    · by_cases hq : q = 0
      · exact ⟨kvs, by simp [pyTruthy, hq]⟩
      · exact ⟨dictSet kvs "total_match_time" (.float (env.timeTime - q)),
          by simp [pyTruthy, hq, timeDiff]⟩
    · have hs0 : s = "" := by
        simp [pyTruthy] at hst
        exact hst
      exact ⟨kvs, by simp [pyTruthy, hs0]⟩
    · have hx : xs = [] := by
        simp [pyTruthy, List.isEmpty_iff] at hst
        exact hst
      exact ⟨kvs, by simp [pyTruthy, hx]⟩
    · have hx : kv2 = [] := by
        simp [pyTruthy, List.isEmpty_iff] at hst
        exact hst
      exact ⟨kvs, by simp [pyTruthy, hx]⟩
  obtain ⟨kvs1, hkk⟩ := hk1
  refine ⟨dictSet (dictSet (dictSet (dictSet kvs1
      "match_status" (.str "completed"))
      "match_progress" (.int 100))
      "current_step" (.str "Complete"))
      "match_results" (.list (ms.map matchToPy)), ?_, ?_, ?_, ?_⟩
  · unfold commit_results
    rw [h]
    simp only [htr, if_true, Bind.bind, Except.bind]
    rw [hkk]
  · rw [dictLookup_dictSet, if_neg (by decide), dictLookup_dictSet, if_neg (by decide),
      dictLookup_dictSet, if_neg (by decide), dictLookup_dictSet, if_pos rfl]
  · rw [dictLookup_dictSet, if_neg (by decide), dictLookup_dictSet, if_neg (by decide),
      dictLookup_dictSet, if_pos rfl]
  · rw [dictLookup_dictSet, if_pos rfl]

/-- A ranking response with no bracketed array degrades to no matches. -/
lemma generate_matches_no_bracket (env : Env) (profs : List ProfessorProfile)
    (ints : List String) (sp : Option StudentProfile)
    (h : extractBracketed (env.generateText (mk_rank_prompt profs ints sp))
      = Option.none) :
    generate_matches env profs ints sp = .ok [] := by
  unfold generate_matches generate_matches_raw
  by_cases hp : profs.isEmpty
  · simp [hp, sortMatchesDesc]
  · simp [hp, h, sortMatchesDesc]

/-- Claim C2: when the response of the ranking oracle contains no bracketed
array, `generate_matches` returns the empty list and the pipeline still
runs to completion — the session ends with `match_status = "completed"`,
`match_progress = 100` and persisted `match_results = []`, and the run
returns the empty match list rather than failing. -/
theorem C2_malformed_ranking_still_completes (env : Env) (sid uni : String)
    (ints : List String) (fids : Option (List String)) (store : Store)
    (kvs0 : List (String × PyVal)) (sp : Option StudentProfile)
    (fac2 : List PyVal)
    (hs : get_session store sid = some (.dict kvs0))
    (hne : kvs0 ≠ [])
    (hst : startTimeOk kvs0 = true)
    (hsp : student_profile_step env sid ints fids = .ok sp)
    (hfl : filter_faculty_by_relevance env (fetch_faculty env uni ints) ints = .ok fac2)
    (hbr : extractBracketed (env.generateText (mk_rank_prompt
        (enrich_professors env fac2 uni).1 ints sp)) = Option.none) :
    ∃ store' kvs', run_matching env sid uni ints fids store = .ok ([], store')
      ∧ get_session store' sid = some (.dict kvs')
      ∧ dictLookup kvs' "match_status" = some (.str "completed")
      ∧ dictLookup kvs' "match_progress" = some (.int 100)
      ∧ dictLookup kvs' "match_results" = some (.list []) := by
  have hgm : generate_matches env (enrich_professors env fac2 uni).1 ints sp = .ok [] :=
    generate_matches_no_bracket env _ ints sp hbr
  obtain ⟨k1, hu1, hg1, hn1, hl1⟩ :=
    session_step store sid kvs0 5 "Parsing uploaded documents" hs hne
  obtain ⟨k2, hu2, hg2, hn2, hl2⟩ :=
    session_step _ sid k1 15 "Fetching faculty directory" hg1 hn1
  obtain ⟨k3, hu3, hg3, hn3, hl3⟩ :=
    session_step _ sid k2 25 "Filtering candidates" hg2 hn2
  obtain ⟨k4, hu4, hg4, hn4, hl4⟩ :=
    session_step _ sid k3 30 "Retrieving publication data" hg3 hn3
  obtain ⟨k5, hu5, hg5, hn5, hl5⟩ :=
    session_step _ sid k4 70 "Analyzing research alignment" hg4 hn4
  obtain ⟨k6, hu6, hg6, hn6, hl6⟩ :=
    session_step _ sid k5 90 "Fetching citation metrics" hg5 hn5
  obtain ⟨k7, hu7, hg7, hn7, hl7⟩ :=
    session_step _ sid k6 95 "Finalizing recommendations" hg6 hn6
  have hst7 : startTimeOk k7 = true := by
    rw [startTimeOk_congr k6 k7 hl7, startTimeOk_congr k5 k6 hl6,
      startTimeOk_congr k4 k5 hl5, startTimeOk_congr k3 k4 hl4,
      startTimeOk_congr k2 k3 hl3, startTimeOk_congr k1 k2 hl2,
      startTimeOk_congr kvs0 k1 hl1]
    exact hst
  obtain ⟨k8, hc, hq1, hq2, hq3⟩ :=
    commit_results_completed env _ sid k7 [] hg7 hn7 hst7
  refine ⟨set_session (set_session (set_session (set_session (set_session (set_session
      (set_session (set_session store sid (.dict k1)) sid (.dict k2)) sid (.dict k3))
      sid (.dict k4)) sid (.dict k5)) sid (.dict k6)) sid (.dict k7)) sid (.dict k8),
    k8, ?_, get_session_set_session _ _ _, hq1, hq2, hq3⟩
  unfold run_matching
  simp only [hu1, hsp, hu2, hu3, hfl, hu4, hu5, hgm, hu6,
    enrich_matches_with_google_scholar, List.map_nil, hu7, hc,
    Bind.bind, Except.bind, pure, Except.pure]

/-- Witness for C2: empty faculty, a bracket-free oracle response, one
stored session; the run completes with empty persisted results. -/
theorem C2_malformed_ranking_still_completes_witness :
    ∃ store' kvs', run_matching env0 "s" "mit.edu" ["ml"] Option.none storeC2
        = .ok ([], store')
      ∧ get_session store' "s" = some (.dict kvs')
      ∧ dictLookup kvs' "match_status" = some (.str "completed")
      ∧ dictLookup kvs' "match_progress" = some (.int 100)
      ∧ dictLookup kvs' "match_results" = some (.list []) :=
  C2_malformed_ranking_still_completes env0 "s" "mit.edu" ["ml"] Option.none storeC2
    [("match_start_time", .int 0)] Option.none []
    rfl (by simp) rfl rfl rfl rfl
